import Mathlib

/-!
Verification development for the PDFImage repository (pdfimage package).

The Python sources under pdfimage/ are shallowly embedded here:

* pdf_parser.py  — byte-level tokenizer (recognizers), container assembler,
  stream completion (StreamParser), iterator PDFParser.
* pdf_read.py    — file validation, tail / trailer / xref reading, object
  resolution (object_at, full_object_at, _recurse_populate).
* pdf_write.py   — the serializer (PDFWriter and the document entities).

Bytes are modelled as List Nat (each element < 256 on real inputs), byte
strings by the helper bs.  Python exceptions are modelled with Except;
loops whose termination is data dependent take an explicit fuel argument
(structural recursion on fuel, so terms evaluate by rfl / decide).

The value-class module of the package (classes PDFBoolean, PDFNumeric,
PDFString, PDFName, PDFNull, PDFArray, PDFDictionary, PDFStream,
PDFRawStream, PDFObjectId, PDFObject, PDFSimpleDict) is not present in the
source tree (pdf.py only holds a legacy line-based reader), although
pdf_parser.py, pdf_read.py, pdf_write.py and the tests use it.  Types and
byte serialization for those classes are therefore modelled from the
specification (its data-model section and its byte-exact output
description), as noted on each affected definition.
-/

/-- Byte string helper: the ASCII bytes of a Lean string literal. -/
def bs (s : String) : List Nat := s.data.map Char.toNat

/-- Decimal digit test, membership of a byte in `0123456789`. -/
def isDigitByte (b : Nat) : Bool := 48 ≤ b && b ≤ 57

/-- Membership in the numeric-character set `_NUMERICS = 0123456789.+-`. -/
def isNumericByte (b : Nat) : Bool := isDigitByte b || b == 46 || b == 43 || b == 45

/-- Membership in the whitespace byte set of pdf_parser.py `_WHITESPACE`
(NUL, TAB, LF, FF, CR, SPACE). -/
def isWsByte (b : Nat) : Bool :=
  b == 0 || b == 9 || b == 10 || b == 12 || b == 13 || b == 32

/-- Membership in the delimiter byte set of pdf_parser.py `_DELIMS`:
whitespace plus the ten bytes of the bracket, slash and percent
characters. -/
def isDelimByte (b : Nat) : Bool :=
  isWsByte b || b == 40 || b == 41 || b == 60 || b == 62 || b == 91 || b == 93 ||
    b == 123 || b == 125 || b == 47 || b == 37

/-- length_suffix_whitespace from pdf_parser.py, specialised to a start
index of 0 (every call site in the embedded code uses the default):
the length of the whitespace run at the head of the data. -/
def lengthSuffixWhitespace : List Nat → Nat
  | [] => 0
  | b :: rest => if isWsByte b then lengthSuffixWhitespace rest + 1 else 0

/-- skip_whitespace of PullBytesStream: drop the leading whitespace run. -/
def skipWs (data : List Nat) : List Nat := data.drop (lengthSuffixWhitespace data)

/-- at_eol_marker from pdf_parser.py: number of bytes of the end-of-line
marker at position `index` (LF 1, CRLF 2, CR 1, otherwise 0). -/
def atEolMarker (data : List Nat) (index : Nat) : Nat :=
  match data.drop index with
  | 10 :: _ => 1
  | 13 :: 10 :: _ => 2
  | 13 :: _ => 1
  | _ => 0

/-- Errors raised by the embedded code.  parseError models
pdf_parser.ParseError, valueError models Python ValueError (and the other
ad-hoc exceptions raised by pdf_read.py), hang models a provably
non-terminating loop of the Python code (looping without changing state),
fuelOut is exhaustion of the artificial fuel. -/
inductive Err
  | parseError
  | valueError
  | hang
  | fuelOut
deriving DecidableEq, Repr

/-- Numeric payload of PDFNumeric.  Modelled from the spec: the value-class
module is missing from the source tree; per the spec a Numeric is an
integer or a real and must remember its textual form class.  A real is
kept as a scaled decimal: realVal m s stands for m / 10 ^ s. -/
inductive PDFNum
  | intVal (i : Int)
  | realVal (m : Int) (s : Nat)
deriving DecidableEq, Repr

/-- The PDF value sum type.  Modelled from the spec (data-model section):
the value-class module itself is missing from the source tree.  Dictionary
entries keep insertion order; keys are stored as full values because the
assembler (DictionaryConsumer) routes arbitrary parsed values into the key
slot.  objSlot i is the write-side PDFObject occupying position i of the
serializer object list (the serializer assigns it number i+1, generation
0); it models the mutable shared identity of PDFObject. -/
inductive PDFValue
  | boolean (b : Bool)
  | numeric (v : PDFNum)
  | string (contents : List Nat)
  | name (contents : List Nat)
  | null
  | array (xs : List PDFValue)
  | dict (items : List (PDFValue × PDFValue))
  | stream (items : List (PDFValue × PDFValue)) (contents : List Nat)
  | rawStream (contents : List Nat)
  | objectId (num gen : Nat)
  | objSlot (i : Nat)

/-- int(...) of a nonempty decimal digit run. -/
def natOfDigits (ds : List Nat) : Nat := ds.foldl (fun a d => a * 10 + (d - 48)) 0

/-- The leading decimal digit run of the data. -/
def digitRun (data : List Nat) : List Nat := data.takeWhile (fun b => isDigitByte b)

/-- Python int(...) on a byte token: optional sign then a nonempty digit
run, nothing else (surrounding whitespace already stripped by callers).
Modelled from the spec for the missing PDFNumeric class. -/
def parseIntToken (l : List Nat) : Option Int :=
  let sb : Int × List Nat :=
    match l with
    | 43 :: r => (1, r)
    | 45 :: r => (-1, r)
    | r => (1, r)
  if sb.2 ≠ [] ∧ sb.2.all (fun b => isDigitByte b) then some (sb.1 * natOfDigits sb.2)
  else none

/-- Python float(...) body (after the optional sign), restricted to the
digit and dot alphabet the numeric recognizer can produce: digits with at
most one dot and at least one digit.  Returns (combined digits, number of
fractional digits). -/
def floatBody (l : List Nat) : Option (Nat × Nat) :=
  let ip := l.takeWhile (fun b => isDigitByte b)
  match l.drop ip.length with
  | [] => if ip = [] then none else some (natOfDigits ip, 0)
  | 46 :: frac =>
      if frac.all (fun b => isDigitByte b) ∧ (ip ≠ [] ∨ frac ≠ []) then
        some (natOfDigits (ip ++ frac), frac.length)
      else none
  | _ => none

/-- Construction of PDFNumeric from a byte token.  Modelled from the spec
(the value-class module is missing): try int(...) first, then float(...),
else a ValueError.  Pinned by tests/pdf_test.py (PDFNumeric of "+7" is the
integer 7, of "5.2" the real 5.2, of "a6sa" an error). -/
def pdfNumericOfBytes (l : List Nat) : Option PDFNum :=
  match parseIntToken l with
  | some i => some (.intVal i)
  | none =>
    let sb : Int × List Nat :=
      match l with
      | 43 :: r => (1, r)
      | 45 :: r => (-1, r)
      | r => (1, r)
    match floatBody sb.2 with
    | some vs => some (.realVal (sb.1 * vs.1) vs.2)
    | none => none

/-- Result of one recognizer: a parsed value with its consumed byte count,
or a container-open token (Python returns (None, used) there and supplies
a consumer). -/
inductive POut
  | val (v : PDFValue) (used : Nat)
  | openArr (used : Nat)
  | openDict (used : Nat)

/-- True when position i is past the end of the data or holds a delimiter
byte (the recognizers" trailing-delimiter test). -/
def delimAtOrEnd (data : List Nat) (i : Nat) : Bool :=
  match (data.drop i).head? with
  | none => true
  | some b => isDelimByte b

/-- BooleanParser.parse from pdf_parser.py. -/
def booleanParse (data : List Nat) : Except Err (Option POut) :=
  if data.take 4 = bs ("true") ∧ delimAtOrEnd data 4 = true then
    .ok (some (.val (.boolean true) 4))
  else if data.take 5 = bs ("false") ∧ delimAtOrEnd data 5 = true then
    .ok (some (.val (.boolean false) 5))
  else .ok none

/-- Completion step of NumericParser.parse: PDFNumeric(data[:index]) with
ValueError mapped to ParseError. -/
def numericFinish (run : List Nat) : Except Err (Option POut) :=
  match pdfNumericOfBytes run with
  | some v => .ok (some (.val (.numeric v) run.length))
  | none => .error .parseError

/-- NumericParser.parse from pdf_parser.py: take the maximal run over the
numeric characters; an empty run is no-match; a following byte that is not
a delimiter is a hard ParseError; otherwise build the PDFNumeric. -/
def numericParse (data : List Nat) : Except Err (Option POut) :=
  let run := data.takeWhile (fun b => isNumericByte b)
  if run.isEmpty then .ok none
  else
    match (data.drop run.length).head? with
    | some b => if isDelimByte b then numericFinish run else .error .parseError
    | none => numericFinish run

/-- Octal digit test. -/
def isOctalByte (b : Nat) : Bool := 48 ≤ b && b ≤ 55

/-- The body loop of StringParser.parse from pdf_parser.py, carrying the
decoded bytes and returning the rest of the data after the closing
parenthesis.  Transcribes the while loop: close on `)`, collapse LF / CR /
CRLF to a single LF, handle backslash escapes (line continuation, named
escapes, up to three octal digits with values at least 256 an error, and
an unknown escape dropping only the backslash: the source reprocesses the
escaped byte as an ordinary byte, which appends it), and a backslash at
the end of data or a missing `)` are ParseErrors.  The fuel argument
counts loop iterations; every iteration consumes at least one input byte,
so any fuel above the input length is enough and fuelOut is unreachable
from stringParse. -/
def stringLoop : Nat → List Nat → List Nat → Except Err (List Nat × List Nat)
  | 0, _, _ => .error .fuelOut
  | _, _, [] => .error .parseError
  | _, acc, 41 :: rest => .ok (acc, rest)
  | fuel + 1, acc, 13 :: rest =>
    match rest with
    | 10 :: r2 => stringLoop fuel (acc ++ [10]) r2
    | _ => stringLoop fuel (acc ++ [10]) rest
  | fuel + 1, acc, 10 :: rest => stringLoop fuel (acc ++ [10]) rest
  | _, _, [92] => .error .parseError
  | fuel + 1, acc, 92 :: c :: rest =>
    if c = 10 then stringLoop fuel acc rest
    else if c = 13 then
      match rest with
      | 10 :: r2 => stringLoop fuel acc r2
      | _ => stringLoop fuel acc rest
    else if c = 110 then stringLoop fuel (acc ++ [10]) rest
    else if c = 114 then stringLoop fuel (acc ++ [13]) rest
    else if c = 116 then stringLoop fuel (acc ++ [9]) rest
    else if c = 98 then stringLoop fuel (acc ++ [8]) rest
    else if c = 102 then stringLoop fuel (acc ++ [12]) rest
    else if c = 40 then stringLoop fuel (acc ++ [40]) rest
    else if c = 41 then stringLoop fuel (acc ++ [41]) rest
    else if c = 92 then stringLoop fuel (acc ++ [92]) rest
    else if isOctalByte c then
      match rest with
      | [] => stringLoop fuel (acc ++ [c - 48]) []
      | d2 :: rest2 =>
        if isOctalByte d2 then
          match rest2 with
          | [] => stringLoop fuel (acc ++ [8 * (c - 48) + (d2 - 48)]) []
          | d3 :: rest3 =>
            if isOctalByte d3 then
              let v := 64 * (c - 48) + 8 * (d2 - 48) + (d3 - 48)
              if 256 ≤ v then .error .parseError else stringLoop fuel (acc ++ [v]) rest3
            else stringLoop fuel (acc ++ [8 * (c - 48) + (d2 - 48)]) (d3 :: rest3)
        else stringLoop fuel (acc ++ [c - 48]) (d2 :: rest2)
    else stringLoop fuel (acc ++ [c]) rest
  | fuel + 1, acc, b :: rest => stringLoop fuel (acc ++ [b]) rest

/-- StringParser.parse from pdf_parser.py. -/
def stringParse (data : List Nat) : Except Err (Option POut) :=
  match data with
  | 40 :: rest =>
    match stringLoop (rest.length + 1) [] rest with
    | .error e => .error e
    | .ok pr => .ok (some (.val (.string pr.1) (data.length - pr.2.length)))
  | _ => .ok none

/-- Value of a hexadecimal digit byte, accepting lower case (the source
upper-cases before the lookup). -/
def hexDigitVal (b : Nat) : Option Nat :=
  if 48 ≤ b ∧ b ≤ 57 then some (b - 48)
  else if 65 ≤ b ∧ b ≤ 70 then some (b - 55)
  else if 97 ≤ b ∧ b ≤ 102 then some (b - 87)
  else none

/-- Loop of HexStringParser.parse: digits pair up into bytes, whitespace is
skipped, `>` closes (an odd trailing digit is padded with 0), any other
byte or running off the end is a ParseError. -/
def hexLoop (acc : List Nat) (pending : Option Nat) : List Nat → Except Err (List Nat × List Nat)
  | [] => .error .parseError
  | 62 :: rest =>
    match pending with
    | some h => .ok (acc ++ [16 * h], rest)
    | none => .ok (acc, rest)
  | b :: rest =>
    if isWsByte b then hexLoop acc pending rest
    else
      match hexDigitVal b with
      | some h =>
        match pending with
        | none => hexLoop acc (some h) rest
        | some h0 => hexLoop (acc ++ [16 * h0 + h]) none rest
      | none => .error .parseError

/-- HexStringParser.parse from pdf_parser.py. -/
def hexStringParse (data : List Nat) : Except Err (Option POut) :=
  match data with
  | 60 :: rest =>
    match hexLoop [] none rest with
    | .error e => .error e
    | .ok pr => .ok (some (.val (.string pr.1) (data.length - pr.2.length)))
  | _ => .ok none

/-- Loop of ParseName.parse: plain bytes accumulate, a delimiter or the end
of data stops (the delimiter is not consumed), `#` takes two following hex
digits (missing or invalid digits are ParseErrors). -/
def nameLoop (acc : List Nat) : List Nat → Except Err (List Nat × List Nat)
  | [] => .ok (acc, [])
  | 35 :: rest =>
    match rest with
    | h1 :: h2 :: r2 =>
      match hexDigitVal h1, hexDigitVal h2 with
      | some a, some b2 => nameLoop (acc ++ [16 * a + b2]) r2
      | _, _ => .error .parseError
    | _ => .error .parseError
  | b :: rest =>
    if isDelimByte b then .ok (acc, b :: rest) else nameLoop (acc ++ [b]) rest

/-- ParseName.parse from pdf_parser.py. -/
def nameParse (data : List Nat) : Except Err (Option POut) :=
  match data with
  | 47 :: rest =>
    match nameLoop [] rest with
    | .error e => .error e
    | .ok pr => .ok (some (.val (.name pr.1) (data.length - pr.2.length)))
  | _ => .ok none

/-- ParseNull.parse from pdf_parser.py. -/
def nullParse (data : List Nat) : Except Err (Option POut) :=
  if data.take 4 = bs ("null") then
    if delimAtOrEnd data 4 = true then .ok (some (.val .null 4)) else .ok none
  else .ok none

/-- ParseObjectId._parse_number from pdf_parser.py: collect the decimal run
from `index`; running off the end is no-match; a non-whitespace byte after
the run is no-match; otherwise int(...) of the run, which raises
ValueError when the run is empty (the byte at `index` was whitespace). -/
def parseNumberAt (data : List Nat) (index : Nat) : Except Err (Option (Nat × Nat)) :=
  let run := digitRun (data.drop index)
  match (data.drop (index + run.length)).head? with
  | none => .ok none
  | some b =>
    if isWsByte b then
      if run.isEmpty then .error .valueError
      else .ok (some (natOfDigits run, index + run.length + 1))
    else .ok none

/-- ParseObjectId.parse from pdf_parser.py: two whitespace-terminated
decimal numbers, then `R` followed by a delimiter byte that must be
present. -/
def objectIdParse (data : List Nat) : Except Err (Option POut) :=
  match parseNumberAt data 0 with
  | .error e => .error e
  | .ok none => .ok none
  | .ok (some pr1) =>
    match parseNumberAt data pr1.2 with
    | .error e => .error e
    | .ok none => .ok none
    | .ok (some pr2) =>
      if pr2.2 + 1 ≥ data.length then .ok none
      else if (data.drop pr2.2).head? = some 82 ∧ delimAtOrEnd data (pr2.2 + 1) = true then
        .ok (some (.val (.objectId pr1.1 pr2.1) (pr2.2 + 1)))
      else .ok none

/-- ParseArray.parse from pdf_parser.py: `[` opens an array consumer. -/
def arrayOpenParse (data : List Nat) : Except Err (Option POut) :=
  match data with
  | 91 :: _ => .ok (some (.openArr 1))
  | _ => .ok none

/-- ParseDictionary.parse from pdf_parser.py: `<<` opens a dictionary
consumer. -/
def dictOpenParse (data : List Nat) : Except Err (Option POut) :=
  match data with
  | 60 :: 60 :: _ => .ok (some (.openDict 2))
  | _ => .ok none

/-- PDFParser._find_parser from pdf_parser.py: try the recognizers in the
fixed priority order of PDFParser.__init__ (Boolean, ObjectId, Numeric,
String, Dictionary, HexString, Name, Null, Array), returning the first
match and propagating any recognizer error. -/
def findParser (data : List Nat) : Except Err (Option POut) :=
  match booleanParse data with
  | .error e => .error e
  | .ok (some r) => .ok (some r)
  | .ok none =>
  match objectIdParse data with
  | .error e => .error e
  | .ok (some r) => .ok (some r)
  | .ok none =>
  match numericParse data with
  | .error e => .error e
  | .ok (some r) => .ok (some r)
  | .ok none =>
  match stringParse data with
  | .error e => .error e
  | .ok (some r) => .ok (some r)
  | .ok none =>
  match dictOpenParse data with
  | .error e => .error e
  | .ok (some r) => .ok (some r)
  | .ok none =>
  match hexStringParse data with
  | .error e => .error e
  | .ok (some r) => .ok (some r)
  | .ok none =>
  match nameParse data with
  | .error e => .error e
  | .ok (some r) => .ok (some r)
  | .ok none =>
  match nullParse data with
  | .error e => .error e
  | .ok (some r) => .ok (some r)
  | .ok none =>
  match arrayOpenParse data with
  | .error e => .error e
  | .ok (some r) => .ok (some r)
  | .ok none => .ok none

/-- StreamParser.parse from pdf_parser.py, for a known length: the literal
`stream` followed by LF or CRLF (anything else is no-match), exactly
`len0` payload bytes, an optional end-of-line marker, and the literal
`endstream`; missing data or a wrong closing marker is a ParseError. -/
def streamParse (len0 : Nat) (data : List Nat) : Except Err (Option (PDFValue × Nat)) :=
  if data.take 6 = bs ("stream") then
    let haveLf := (data.drop 6).head? = some 10
    let haveCrLf := (data.drop 6).take 2 = [13, 10]
    if haveLf ∨ haveCrLf then
      let index := if haveLf then 7 else 8
      let expectedEnd := index + len0
      if expectedEnd > data.length then .error .parseError
      else
        let streamData := (data.drop index).take len0
        let eolbytes := atEolMarker data expectedEnd
        if expectedEnd + eolbytes + 9 > data.length then .error .parseError
        else if (data.drop (expectedEnd + eolbytes)).take 9 = bs ("endstream") then
          .ok (some (.rawStream streamData, expectedEnd + eolbytes + 9))
        else .error .parseError
    else .ok none
  else .ok none

/-- A container consumer of the assembler: ArrayConsumer carries its
accumulated sequence, DictionaryConsumer carries its finished (key, value)
pairs and the pending unpaired key. -/
inductive Consumer
  | arr (acc : List PDFValue)
  | dic (items : List (PDFValue × PDFValue)) (cur : Option PDFValue)

/-- Consumer.consume: ArrayConsumer appends; DictionaryConsumer stores the
first value of a pair as the pending key and pairs the second with it. -/
def consumerConsume : Consumer → PDFValue → Consumer
  | .arr acc, v => .arr (acc ++ [v])
  | .dic items none, v => .dic items (some v)
  | .dic items (some k), v => .dic (items ++ [(k, v)]) none

/-- Consumer.end: the number of closing-delimiter bytes when the upcoming
data closes this container (`]` for arrays, `>>` for dictionaries), else
none. -/
def consumerEnd : Consumer → List Nat → Option Nat
  | .arr _, data => match data with | 93 :: _ => some 1 | _ => none
  | .dic _ _, data => match data with | 62 :: 62 :: _ => some 2 | _ => none

/-- Consumer.build: ArrayConsumer yields its sequence; DictionaryConsumer
yields only the completed pairs — a pending unpaired key is silently
discarded (it is not consulted). -/
def consumerBuild : Consumer → PDFValue
  | .arr acc => .array acc
  | .dic items _ => .dict items

/-- Continuation of the first inner while loop of PDFParser.__iter__ once
at least one consumer has been built: keep closing while the stack is
nonempty; each built value overwrites the previous one without being fed
to the parent consumer; a top consumer that does not close on the current
bytes leaves the Python loop spinning with unchanged state, modelled by
the hang error. -/
def closeAllGo : List Consumer → List Nat → PDFValue → Except Err (Option PDFValue × List Nat)
  | [], data, obj => .ok (some obj, data)
  | c :: rest, data, _ =>
    match consumerEnd c data with
    | none => .error .hang
    | some used => closeAllGo rest (data.drop used) (consumerBuild c)

/-- The first inner while loop of PDFParser.__iter__ (the branch where no
recognizer matched): close consumers from the top of the stack via
closeAllGo; an empty stack returns with no value. -/
def closeAll : List Consumer → List Nat → Except Err (Option PDFValue × List Nat)
  | [], data => .ok (none, data)
  | c :: rest, data =>
    match consumerEnd c data with
    | none => .error .hang
    | some used => closeAllGo rest (data.drop used) (consumerBuild c)

/-- The second inner while loop of PDFParser.__iter__: feed the value to
the top consumer, skip whitespace, close-and-build while the closing
delimiter follows, and either return the final built value (stack empty)
or leave it absorbed. -/
def feedAll : List Consumer → List Nat → PDFValue → Option PDFValue × List Consumer × List Nat
  | [], data, obj => (some obj, [], data)
  | c :: rest, data, obj =>
    let c2 := consumerConsume c obj
    let data2 := skipWs data
    match consumerEnd c2 data2 with
    | some used => feedAll rest (data2.drop used) (consumerBuild c2)
    | none => (none, c2 :: rest, data2)

/-- The main loop of PDFParser.__iter__, one fuel unit per iteration:
skip whitespace; stop at the end of data; on no recognizer match run the
close loop and either yield its value or stop; on a container-open push a
consumer; on a value route it through the consumer stack and yield
whatever surfaces.  Returns the yielded objects together with the
remaining unconsumed data (the stream position when iteration ends). -/
def pdfIterAux : Nat → List Nat → List Consumer → List PDFValue →
    Except Err (List PDFValue × List Nat)
  | 0, _, _, _ => .error .fuelOut
  | fuel + 1, data, consumers, acc =>
    let data := skipWs data
    if data.isEmpty then .ok (acc, data)
    else
      match findParser data with
      | .error e => .error e
      | .ok none =>
        match closeAll consumers data with
        | .error e => .error e
        | .ok (some obj, data2) => pdfIterAux fuel data2 [] (acc ++ [obj])
        | .ok (none, data2) => .ok (acc, data2)
      | .ok (some (.openArr used)) => pdfIterAux fuel (data.drop used) (.arr [] :: consumers) acc
      | .ok (some (.openDict used)) =>
        pdfIterAux fuel (data.drop used) (.dic [] none :: consumers) acc
      | .ok (some (.val v used)) =>
        match feedAll consumers (data.drop used) v with
        | (some obj, cs2, data2) => pdfIterAux fuel data2 cs2 (acc ++ [obj])
        | (none, cs2, data2) => pdfIterAux fuel data2 cs2 acc

/-- list(PDFParser(file)): run the iterator to completion with ample fuel
(one unit per iteration; every iteration either consumes a byte or
terminates, so length + 2 is enough). -/
def pdfParseAll (data : List Nat) : Except Err (List PDFValue × List Nat) :=
  pdfIterAux (data.length + 2) data [] []

/-- Pair up a flat list of values two at a time, as the spec describes for
the Dictionary consumer; a trailing unpaired value is dropped.  This is
the specification-side description of what DictionaryConsumer actually
computes. -/
def pairUpValues : List PDFValue → List (PDFValue × PDFValue)
  | [] => []
  | [_] => []
  | k :: v :: rest => (k, v) :: pairUpValues rest

/-- pairUpValues continued from a consumer state with pending key cur. -/
def pairUpFrom : Option PDFValue → List PDFValue → List (PDFValue × PDFValue)
  | none, vs => pairUpValues vs
  | some _, [] => []
  | some k, v :: rest => (k, v) :: pairUpValues rest

/-! The object-graph resolver of pdf_read.py: PDF.full_object_at,
PDF._recurse_populate and its inner make_new_object.  object_at is
abstracted as a function `file : Nat → PDFValue` giving the parsed body of
the object stored at each file offset (objects without stream payloads;
the stream-completion branch of full_object_at is orthogonal to the
recursion being modelled).  The cross-reference table `_obj_lookup` is a
list of ((number, generation), offset) entries; as in a Python dict later
entries for the same key win.  The three mutually recursive Python
functions are embedded as a single fuel-indexed interpreter: each unit of
fuel pays for one call or one list step, a result of none models
non-termination (the Python RecursionError), and success for some fuel is
exactly termination of the unbounded recursion. -/

/-- A pending call of the resolver. -/
inductive RCall
  | fullAt (loc : Nat)
  | popul (obj : PDFValue)
  | mkNew (obj : PDFValue)
  | populList (xs : List PDFValue)
  | populPairs (ps : List (PDFValue × PDFValue))

/-- A resolver result: a value, a resolved array body, or resolved
dictionary items. -/
inductive ROut
  | obj (o : PDFValue)
  | objs (xs : List PDFValue)
  | pairs (ps : List (PDFValue × PDFValue))

/-- Lookup in the cross-reference list, later entries winning (Python dict
comprehension semantics of PDF._read_xrefs). -/
def lookupLoc (lookup : List ((Nat × Nat) × Nat)) (n g : Nat) : Option Nat :=
  (lookup.reverse.find? (fun e => e.1.1 == n && e.1.2 == g)).map (fun e => e.2)

/-- The fuel-indexed interpreter of full_object_at / _recurse_populate /
make_new_object from pdf_read.py.  fullAt loc parses the object at loc
(abstracted by `file`) and recursively populates it; popul maps
make_new_object over the members of an array or dictionary (keys are kept)
and returns any other value unchanged; mkNew resolves a Reference through
the lookup (a missing entry gives Null, a present entry re-enters
full_object_at) and recurses into nested containers. -/
def resolveRun (file : Nat → PDFValue) (lookup : List ((Nat × Nat) × Nat)) :
    Nat → RCall → Option ROut
  | 0, _ => none
  | fuel + 1, .fullAt loc => resolveRun file lookup fuel (.popul (file loc))
  | fuel + 1, .popul obj =>
    match obj with
    | .array xs =>
      match resolveRun file lookup fuel (.populList xs) with
      | some (.objs l) => some (.obj (.array l))
      | _ => none
    | .dict ps =>
      match resolveRun file lookup fuel (.populPairs ps) with
      | some (.pairs l) => some (.obj (.dict l))
      | _ => none
    | o => some (.obj o)
  | fuel + 1, .mkNew obj =>
    match obj with
    | .objectId n g =>
      match lookupLoc lookup n g with
      | none => some (.obj .null)
      | some loc => resolveRun file lookup fuel (.fullAt loc)
    | .array xs => resolveRun file lookup fuel (.popul (.array xs))
    | .dict ps => resolveRun file lookup fuel (.popul (.dict ps))
    | o => some (.obj o)
  | _ + 1, .populList [] => some (.objs [])
  | fuel + 1, .populList (x :: xs) =>
    match resolveRun file lookup fuel (.mkNew x) with
    | some (.obj o) =>
      match resolveRun file lookup fuel (.populList xs) with
      | some (.objs l) => some (.objs (o :: l))
      | _ => none
    | _ => none
  | _ + 1, .populPairs [] => some (.pairs [])
  | fuel + 1, .populPairs ((k, v) :: ps) =>
    match resolveRun file lookup fuel (.mkNew v) with
    | some (.obj o) =>
      match resolveRun file lookup fuel (.populPairs ps) with
      | some (.pairs l) => some (.pairs ((k, o) :: l))
      | _ => none
    | _ => none

/-- PDF.full_object_at on the abstracted file, fuel-indexed. -/
def fullObjectAtR (file : Nat → PDFValue) (lookup : List ((Nat × Nat) × Nat))
    (fuel loc : Nat) : Option PDFValue :=
  match resolveRun file lookup fuel (.fullAt loc) with
  | some (.obj o) => some o
  | _ => none

/-- PDF._recurse_populate on the abstracted file, fuel-indexed. -/
def recursePopulateR (file : Nat → PDFValue) (lookup : List ((Nat × Nat) × Nat))
    (fuel : Nat) (obj : PDFValue) : Option PDFValue :=
  match resolveRun file lookup fuel (.popul obj) with
  | some (.obj o) => some o
  | _ => none

/-- Specification-side resolution of one Reference, following the spec
wording for full_object_at: the target is looked up via the
cross-reference table, a Reference with no table entry resolves to Null,
and one with an entry resolves to the fully resolved object at the target
offset (at the stated fuel). -/
def specResolveRef (file : Nat → PDFValue) (lookup : List ((Nat × Nat) × Nat))
    (fuel : Nat) (n g : Nat) : PDFValue :=
  match lookupLoc lookup n g with
  | none => .null
  | some loc =>
    match resolveRun file lookup fuel (.fullAt loc) with
    | some (.obj o) => o
    | _ => .null

mutual

/-- Specification-side transformer, from the spec wording: replace every
Reference nested anywhere inside the value by r applied to its number and
generation, keeping dictionary keys and every other leaf; a top-level
non-container value (a Reference included) is returned unchanged. -/
def replaceNestedRefs (r : Nat → Nat → PDFValue) : PDFValue → PDFValue
  | .array xs => .array (replaceItemList r xs)
  | .dict ps => .dict (replaceItemPairs r ps)
  | .boolean b => .boolean b
  | .numeric v => .numeric v
  | .string c => .string c
  | .name c => .name c
  | .null => .null
  | .stream i c => .stream i c
  | .rawStream c => .rawStream c
  | .objectId n g => .objectId n g
  | .objSlot i => .objSlot i

/-- Replacement of one nested member: a Reference becomes r n g, containers
recurse, other values are kept. -/
def replaceItem (r : Nat → Nat → PDFValue) : PDFValue → PDFValue
  | .objectId n g => r n g
  | .array xs => .array (replaceItemList r xs)
  | .dict ps => .dict (replaceItemPairs r ps)
  | .boolean b => .boolean b
  | .numeric v => .numeric v
  | .string c => .string c
  | .name c => .name c
  | .null => .null
  | .stream i c => .stream i c
  | .rawStream c => .rawStream c
  | .objSlot i => .objSlot i

/-- replaceItem mapped over an array body. -/
def replaceItemList (r : Nat → Nat → PDFValue) : List PDFValue → List PDFValue
  | [] => []
  | x :: xs => replaceItem r x :: replaceItemList r xs

/-- replaceItem mapped over dictionary items, keys untouched. -/
def replaceItemPairs (r : Nat → Nat → PDFValue) :
    List (PDFValue × PDFValue) → List (PDFValue × PDFValue)
  | [] => []
  | (k, v) :: ps => (k, replaceItem r v) :: replaceItemPairs r ps

end

/-- The cyclic two-object file of the C1 analysis: the object at offset 10
is a dictionary whose Next entry references object (2, 0), stored at
offset 20, whose Back entry references object (1, 0) back at offset 10. -/
def cycFile : Nat → PDFValue := fun loc =>
  if loc = 10 then .dict [(.name (bs "Next"), .objectId 2 0)]
  else if loc = 20 then .dict [(.name (bs "Back"), .objectId 1 0)]
  else .null

/-- Cross-reference entries of the cyclic file. -/
def cycLookup : List ((Nat × Nat) × Nat) := [((1, 0), 10), ((2, 0), 20)]

/-- Concrete acyclic resolution example for the C7 witness: offset 50
holds the numeric 7; the lookup maps object (1, 0) to offset 50; offset 60
holds a dictionary whose A entry references (1, 0) and whose B entry
references the absent object (9, 9). -/
def egResFile : Nat → PDFValue := fun loc =>
  if loc = 50 then .numeric (.intVal 7)
  else if loc = 60 then
    .dict [(.name (bs "A"), .objectId 1 0), (.name (bs "B"), .objectId 9 9)]
  else .null

/-- Cross-reference entries of the C7 witness example. -/
def egResLookup : List ((Nat × Nat) × Nat) := [((1, 0), 50)]

/-- Decimal digits of n, most significant first (fuel is the digit count
bound; n + 1 is always enough). -/
def decimalDigitsAux : Nat → Nat → List Nat
  | 0, _ => []
  | fuel + 1, n => if n < 10 then [48 + n] else decimalDigitsAux fuel (n / 10) ++ [48 + n % 10]

/-- Decimal byte rendering of a natural number, as str(n) in Python. -/
def decimalBytes (n : Nat) : List Nat := decimalDigitsAux (n + 1) n

/-- Decimal byte rendering of an integer, as str(i) in Python. -/
def intBytes (i : Int) : List Nat :=
  if i < 0 then 45 :: decimalBytes i.natAbs else decimalBytes i.natAbs

/-- Left zero padding to width w, the {:0w} format of the serializer. -/
def padZeros (w : Nat) (l : List Nat) : List Nat := List.replicate (w - l.length) 48 ++ l

/-- An IndirectObject (class PDFObject).  Modelled from the spec: the
value-class module is missing from the source tree; per the spec an
IndirectObject is a value plus a mutable identity — an object number and a
generation — initially unassigned, modelled as Option fields. -/
structure PDFIndirectObject where
  data : Option PDFValue
  number : Option Nat
  generation : Option Nat

/-- Byte conversion of an IndirectObject.  Modelled from the spec: a
Reference or IndirectObject serializes as the reference N G R of its
identity, and converting one to bytes before identity assignment is an
error (the InvalidIdentity error of the spec taxonomy; the tests pin it as
a Python ValueError). -/
def pdfIndirectToBytes (o : PDFIndirectObject) : Except Err (List Nat) :=
  match o.number, o.generation with
  | some n, some g => .ok (decimalBytes n ++ 32 :: (decimalBytes g ++ [32, 82]))
  | _, _ => .error .valueError

/-- Escape of one literal-string byte on serialization.  Modelled from the
spec: strings serialize with escapes for the parentheses, the backslash
and the control characters LF CR TAB BS FF; other bytes are verbatim.
Pinned by tests/pdf_test.py. -/
def escapeStringByte (b : Nat) : List Nat :=
  if b = 10 then [92, 110]
  else if b = 13 then [92, 114]
  else if b = 9 then [92, 116]
  else if b = 8 then [92, 98]
  else if b = 12 then [92, 102]
  else if b = 40 then [92, 40]
  else if b = 41 then [92, 41]
  else if b = 92 then [92, 92]
  else [b]

/-- Serialized literal string. -/
def stringValueBytes (l : List Nat) : List Nat :=
  40 :: (l.foldr (fun b acc => escapeStringByte b ++ acc) [41])

/-- Upper-case hexadecimal digit byte of a value below 16. -/
def hexUpper (v : Nat) : Nat := if v < 10 then 48 + v else 55 + v

/-- Escape of one Name byte on serialization.  Modelled from the spec:
bytes outside printable ASCII minus delimiters are escaped as a hash and
two hex digits.  Pinned by tests/pdf_test.py (the Name Bob LF SPACE T 0xEE
serializes with escapes 0A 20 EE). -/
def nameEscapeByte (b : Nat) : List Nat :=
  if 33 ≤ b ∧ b ≤ 126 ∧ isDelimByte b = false ∧ b ≠ 35 then [b]
  else [35, hexUpper (b / 16), hexUpper (b % 16)]

/-- Serialized Name. -/
def nameValueBytes (l : List Nat) : List Nat :=
  47 :: l.foldr (fun b acc => nameEscapeByte b ++ acc) []

/-- Serialized Numeric.  Modelled from the spec: an integer keeps its
integer form; a real renders with a decimal point (the claim scenarios use
integers only). -/
def numValueBytes : PDFNum → List Nat
  | .intVal i => intBytes i
  | .realVal m s =>
    (if m < 0 then [45] else []) ++ decimalBytes (m.natAbs / 10 ^ s) ++
      (if s = 0 then [46, 48] else 46 :: padZeros s (decimalBytes (m.natAbs % 10 ^ s)))

/-- Space-joined concatenation, the separator between array members and
between dictionary entries. -/
def joinSpace : List (List Nat) → List Nat
  | [] => []
  | [x] => x
  | x :: y :: xs => x ++ 32 :: joinSpace (y :: xs)

/-- Byte serialization of a value, fuel-bounded on nesting depth (any fuel
above the value depth is enough; the wrapper passes a large constant).
Modelled from the spec and pinned by tests/pdf_test.py: booleans and null
are their keywords, arrays are bracketed and space-joined, dictionaries
are double-angle-bracketed with space-separated key value entries in
insertion order, streams append the keyword-delimited payload to their
dictionary, a Reference is N G R, and the write-side PDFObject in slot i
(assigned number i + 1, generation 0) is the reference i+1 0 R. -/
def valueBytesF : Nat → PDFValue → List Nat
  | 0, _ => []
  | fuel + 1, v =>
    match v with
    | .boolean true => bs ("true")
    | .boolean false => bs ("false")
    | .numeric nv => numValueBytes nv
    | .string c => stringValueBytes c
    | .name c => nameValueBytes c
    | .null => bs ("null")
    | .array xs => 91 :: (joinSpace (xs.map (valueBytesF fuel)) ++ [93])
    | .dict ps =>
      bs ("<<") ++
        joinSpace (ps.map (fun p => valueBytesF fuel p.1 ++ 32 :: valueBytesF fuel p.2)) ++
        bs (">>")
    | .stream ps c => valueBytesF fuel (.dict ps) ++ 10 :: (bs ("stream") ++ 10 :: (c ++ 10 :: bs ("endstream")))
    | .rawStream c => bs ("stream") ++ 10 :: (c ++ 10 :: bs ("endstream"))
    | .objectId n g => decimalBytes n ++ 32 :: (decimalBytes g ++ [32, 82])
    | .objSlot i => decimalBytes (i + 1) ++ 32 :: (decimalBytes 0 ++ [32, 82])

/-- Byte serialization of a value (nesting depth bound 1000). -/
def valueBytes (v : PDFValue) : List Nat := valueBytesF 1000 v

/-! The serializer of pdf_write.py (PDFWriter and the document entities),
specialised to the concrete ordering of _to_full_objects: the object list
is catalog, page tree, pages, user-registered objects, info, numbered from
1 in that order with generation 0.  Write-side PDFObject instances are
modelled by objSlot positions into that list (the catalog is slot 0, the
page tree slot 1, page i slot 2 + i, and so on), which mirrors the
identity sharing of the mutable Python objects. -/

/-- A page given to the writer: the mediabox rectangle coordinates, the
resources value and the contents value (pdf_write.Page). -/
structure WPage where
  mediabox : List Int
  resources : PDFValue
  contents : PDFValue

/-- Rectangle() from pdf_write.py: the array of the four coordinates. -/
def rectValue (coords : List Int) : PDFValue :=
  .array (coords.map (fun x => .numeric (.intVal x)))

/-- Page.object() from pdf_write.py: Type, Parent (the page-tree object,
always slot 1), Resources, MediaBox, Contents, in insertion order. -/
def pageObjectValue (p : WPage) : PDFValue :=
  .dict [(.name (bs "Type"), .name (bs "Page")),
         (.name (bs "Parent"), .objSlot 1),
         (.name (bs "Resources"), p.resources),
         (.name (bs "MediaBox"), rectValue p.mediabox),
         (.name (bs "Contents"), p.contents)]

/-- PageTree.object() from pdf_write.py: Type, Kids (the page objects, in
slots 2 and up), Count. -/
def pageTreeValue (numPages : Nat) : PDFValue :=
  .dict [(.name (bs "Type"), .name (bs "Pages")),
         (.name (bs "Kids"), .array ((List.range numPages).map (fun i => .objSlot (2 + i)))),
         (.name (bs "Count"), .numeric (.intVal numPages))]

/-- DocumentCatalog.object() from pdf_write.py. -/
def catalogValue : PDFValue :=
  .dict [(.name (bs "Type"), .name (bs "Catalog")), (.name (bs "Pages"), .objSlot 1)]

/-- DateTime from pdf_write.py: the D: prefix and the zero-padded fields
of the supplied timestamp. -/
def dtBytes (y mo d h mi s : Nat) : List Nat :=
  bs ("D:") ++ padZeros 4 (decimalBytes y) ++ padZeros 2 (decimalBytes mo) ++
    padZeros 2 (decimalBytes d) ++ padZeros 2 (decimalBytes h) ++
    padZeros 2 (decimalBytes mi) ++ padZeros 2 (decimalBytes s)

/-- InfoObject.object() from pdf_write.py: Title and CreationDate.  The
timestamp is datetime.now() in the source, an external input, passed here
explicitly. -/
def infoValue (title : List Nat) (y mo d h mi s : Nat) : PDFValue :=
  .dict [(.name (bs "Title"), .string title),
         (.name (bs "CreationDate"), .string (dtBytes y mo d h mi s))]

/-- PDFWriter._to_full_objects from pdf_write.py: catalog, page tree, the
pages, the user-registered objects, then the info object. -/
def toFullObjects (pages : List WPage) (objs : List PDFValue) (title : List Nat)
    (y mo d h mi s : Nat) : List PDFValue :=
  [catalogValue, pageTreeValue pages.length] ++ pages.map pageObjectValue ++ objs ++
    [infoValue title y mo d h mi s]

/-- Modelled from the spec: hashlib.md5 is an external library; the spec
requires an MD5-family 16-byte content digest of all bytes emitted so far,
embedded twice in ID.  Modelled as a deterministic 16-byte digest (a
folded polynomial hash split into bytes). -/
def md5Model (data : List Nat) : List Nat :=
  let h := data.foldl (fun a b => (a * 131 + b + 17) % (2 ^ 128)) 88172645463325252
  (List.range 16).map (fun i => h / 2 ^ (8 * i) % 256)

/-- The object-emission loop of PDFWriter.__bytes__: for each object in
number order record the current output length as its offset, then emit the
object marker line, the serialized value, and endobj.  Returns the grown
output and the offsets in number order. -/
def emitLoop : Nat → List PDFValue → List Nat → List Nat × List Nat
  | _, [], out => (out, [])
  | num, obj :: rest, out =>
    let out2 := out ++ (decimalBytes num ++ 32 :: (decimalBytes 0 ++ (32 :: bs ("obj")))) ++
      [10] ++ valueBytes obj ++ [10] ++ bs ("endobj
")
    let pr := emitLoop (num + 1) rest out2
    (pr.1, out.length :: pr.2)

/-- The input of PDFWriter: the added pages, the added objects, the info
title and the datetime.now() timestamp fields (an external input of
InfoObject). -/
structure WInput where
  pages : List WPage
  objs : List PDFValue
  title : List Nat
  year : Nat
  month : Nat
  day : Nat
  hour : Nat
  minute : Nat
  second : Nat

/-- The full object list of the writer input. -/
def writerObjects (w : WInput) : List PDFValue :=
  toFullObjects w.pages w.objs w.title w.year w.month w.day w.hour w.minute w.second

/-- The header line plus emitted objects of PDFWriter.__bytes__, with the
offsets. -/
def writerEmit (w : WInput) : List Nat × List Nat :=
  emitLoop 1 (writerObjects w) (bs ("%PDF-1.4
"))

/-- start_xref of PDFWriter.__bytes__: the output length when the xref
keyword is emitted. -/
def writerStartXref (w : WInput) : Nat := (writerEmit w).1.length

/-- The output of PDFWriter.__bytes__ up to and including the xref table:
the single subsection header 0 count+1, the fixed free slot for object 0,
and one fixed-width row per object in number order.  This is also the
hash_data handed to _make_trailer. -/
def writerWithXref (w : WInput) : List Nat :=
  (writerEmit w).2.foldl
    (fun acc off => acc ++ padZeros 10 (decimalBytes off) ++ bs (" 00000 n 
"))
    ((writerEmit w).1 ++ bs ("xref
0 ") ++ decimalBytes ((writerEmit w).2.length + 1) ++
      [10] ++ bs ("0000000000 65535 f 
"))

/-- The trailer dictionary of PDFWriter._make_trailer: Size is the object
count plus one, Root the catalog (slot 0), Info the last object, and ID
the doubled digest of all bytes emitted so far. -/
def writerTrailerDict (w : WInput) : PDFValue :=
  .dict [(.name (bs "Size"), .numeric (.intVal ((writerEmit w).2.length + 1))),
         (.name (bs "Root"), .objSlot 0),
         (.name (bs "Info"), .objSlot ((writerObjects w).length - 1)),
         (.name (bs "ID"), .array [.string (md5Model (writerWithXref w)),
                                   .string (md5Model (writerWithXref w))])]

/-- PDFWriter.__bytes__ from pdf_write.py: the object section, the xref
table, the trailer keyword line and dictionary, and the startxref
record. -/
def pdfWriterBytes (w : WInput) : List Nat :=
  writerWithXref w ++ bs ("trailer
") ++ valueBytes (writerTrailerDict w) ++ [10] ++
    bs ("startxref
") ++ decimalBytes (writerStartXref w) ++ [10] ++ bs ("%%EOF
")

/-! The reader of pdf_read.py (class PDF): header validation, line
reading with the PDF end-of-line conventions and comment stripping,
backward search for the tail markers, trailer parsing, cross-reference
parsing, and object_at. -/

/-- Python bytes.strip() whitespace (space, TAB, LF, CR, VT, FF). -/
def isPyWs (b : Nat) : Bool :=
  b == 32 || b == 9 || b == 10 || b == 13 || b == 11 || b == 12

/-- Python bytes.strip(). -/
def stripBytes (l : List Nat) : List Nat :=
  ((l.dropWhile (fun b => isPyWs b)).reverse.dropWhile (fun b => isPyWs b)).reverse

/-- PDFLineReader.readline from pdf_read.py: the next line up to and
including the first LF, CR, or CRLF (CR directly followed by LF counts as
one terminator), or the rest of the data when no terminator remains.
Returns the line and the remaining data. -/
def readPdfLineAux : List Nat → List Nat → List Nat × List Nat
  | acc, [] => (acc, [])
  | acc, 13 :: rest =>
    match rest with
    | 10 :: r2 => (acc ++ [13, 10], r2)
    | _ => (acc ++ [13], rest)
  | acc, 10 :: rest => (acc ++ [10], rest)
  | acc, b :: rest => readPdfLineAux (acc ++ [b]) rest

/-- PDFLineReader.readline, from the start of the data. -/
def readPdfLine (data : List Nat) : List Nat × List Nat := readPdfLineAux [] data

/-- PDFLineReaderComments: truncate the line at the first percent byte. -/
def stripComment (line : List Nat) : List Nat := line.takeWhile (fun b => b ≠ 37)

/-- int(bytes) with surrounding whitespace allowed, as the reader applies
it to stripped line fragments; None models the ValueError. -/
def parseIntBytes (l : List Nat) : Option Int := parseIntToken (stripBytes l)

/-- PDF.is_end_of_line from pdf_read.py: the byte at offset is LF or CR
(false past the end of data). -/
def isEndOfLineB (data : List Nat) (off : Nat) : Bool :=
  match (data.drop off).head? with
  | some 10 => true
  | some 13 => true
  | _ => false

/-- PDF.find_last_occurance from pdf_read.py: the greatest index at which
the pattern occurs followed by an end-of-line byte; the argument of the
auxiliary is the number of candidate indices left to try, scanning
downward. -/
def findLastOccAux (data pat : List Nat) : Nat → Option Nat
  | 0 => none
  | i + 1 =>
    if (data.drop i).take pat.length = pat ∧ isEndOfLineB data (i + pat.length) = true then
      some i
    else findLastOccAux data pat i

/-- PDF.find_last_occurance over the whole data. -/
def findLastOcc (data pat : List Nat) : Option Nat :=
  findLastOccAux data pat (data.length + 1)

/-- Split on single space bytes keeping empty fields, as Python
str.split with a space separator. -/
def splitSpaceAux : List Nat → List Nat → List (List Nat)
  | cur, [] => [cur]
  | cur, 32 :: rest => cur :: splitSpaceAux [] rest
  | cur, b :: rest => splitSpaceAux (cur ++ [b]) rest

/-- str.split on a single space. -/
def splitSpace (l : List Nat) : List (List Nat) := splitSpaceAux [] l

/-- The row loop of PDF._read_xrefs: exactly count fixed-format lines
offset generation type; a malformed row is a ValueError (uncaught in the
source); only in-use rows (type n) are retained as
(start + row, offset, generation). -/
def readXrefRows (start : Nat) : Nat → Nat → List Nat → List (Nat × Nat × Nat) →
    Except Err (List (Nat × Nat × Nat) × List Nat)
  | _, 0, data, acc => .ok (acc, data)
  | row, cnt + 1, data, acc =>
    let pr := readPdfLine data
    let line := stripBytes (stripComment pr.1)
    match splitSpace line with
    | [a, b, c] =>
      match parseIntBytes a, parseIntBytes b with
      | some loc, some gen =>
        readXrefRows start (row + 1) cnt pr.2
          (if c = [110] then acc ++ [(start + row, loc.toNat, gen.toNat)] else acc)
      | _, _ => .error .valueError
    | _ => .error .valueError

/-- The subsection loop of PDF._read_xrefs: a header line start count then
count rows, repeated; any failure to read two integers from the header
line ends the loop (the bare except of the source). -/
def readXrefSections : Nat → List Nat → List (Nat × Nat × Nat) →
    Except Err (List (Nat × Nat × Nat))
  | 0, _, _ => .error .fuelOut
  | fuel + 1, data, acc =>
    let pr := readPdfLine data
    let line := stripBytes (stripComment pr.1)
    match splitSpace line with
    | [a, b] =>
      match parseIntBytes a, parseIntBytes b with
      | some start, some count =>
        match readXrefRows start.toNat 0 count.toNat pr.2 acc with
        | .error e => .error e
        | .ok pr2 => readXrefSections fuel pr2.2 pr2.1
      | _, _ => .ok acc
    | _ => .ok acc

/-- PDF._read_xrefs from pdf_read.py: seek to the offset, require the
literal xref line, then read the subsections. -/
def readXrefs (fileData : List Nat) (offset fuel : Nat) :
    Except Err (List (Nat × Nat × Nat)) :=
  let pr := readPdfLine (fileData.drop offset)
  if stripBytes (stripComment pr.1) = bs ("xref") then readXrefSections fuel pr.2 []
  else .error .valueError

/-- The in-use entries keyed as the object lookup dictionary of the
reader: ((number, generation), offset). -/
def entriesToLookup (l : List (Nat × Nat × Nat)) : List ((Nat × Nat) × Nat) :=
  l.map (fun e => ((e.1, e.2.2), e.2.1))

/-- PDF._tail from pdf_read.py with the default chunk size. -/
def tailChunk (data : List Nat) : List Nat :=
  if data.length ≤ 2048 then data else data.drop (data.length - 2048)

/-- The trailer-parsing stage of PDF._read_tail: locate the last
end-of-line-anchored EOF marker and, before it, the last trailer marker,
then tokenize what follows the seven marker bytes and take the first
parsed object as the trailer dictionary. -/
def trailerStage (fileData : List Nat) : Except Err PDFValue :=
  let data := tailChunk fileData
  match findLastOcc data (bs ("%%EOF")) with
  | none => .error .valueError
  | some eofIdx =>
    match findLastOcc (data.take eofIdx) (bs ("trailer")) with
    | none => .error .valueError
    | some trIdx =>
      match pdfParseAll (data.drop (trIdx + 7)) with
      | .error e => .error e
      | .ok pr =>
        match pr.1.head? with
        | none => .error .valueError
        | some td => .ok td

/-- Membership test of a Name key in a parsed dictionary, as the Python
in operator on PDFDictionary with a PDFName argument. -/
def dictHasName (v : PDFValue) (nm : List Nat) : Bool :=
  match v with
  | .dict ps => ps.any (fun p => match p.1 with | .name c => c == nm | _ => false)
  | _ => false

/-- Lookup of a Name key in a parsed dictionary. -/
def dictGet (v : PDFValue) (nm : List Nat) : Option PDFValue :=
  match v with
  | .dict ps =>
    (ps.find? (fun p => match p.1 with | .name c => c == nm | _ => false)).map (fun p => p.2)
  | _ => none

/-- The result of PDF._read_tail: the trailer dictionary and the object
lookup. -/
structure ReadResult where
  trailer : PDFValue
  lookup : List ((Nat × Nat) × Nat)

/-- PDF._read_tail from pdf_read.py: find the EOF marker, the last
startxref marker before it, read the offset from the following line, parse
the trailer, reject a trailer holding a Prev key (multi-segment
cross-reference files are unsupported), and read the cross-reference
section at the offset. -/
def readTail (fileData : List Nat) (fuel : Nat) : Except Err ReadResult :=
  let data := tailChunk fileData
  match findLastOcc data (bs ("%%EOF")) with
  | none => .error .valueError
  | some eofIdx =>
    match findLastOcc (data.take eofIdx) (bs ("startxref")) with
    | none => .error .valueError
    | some sxIdx =>
      let pr1 := readPdfLine (data.drop sxIdx)
      let pr2 := readPdfLine pr1.2
      match parseIntBytes (stripComment pr2.1) with
      | none => .error .valueError
      | some off =>
        match trailerStage fileData with
        | .error e => .error e
        | .ok td =>
          if dictHasName td (bs ("Prev")) = true then .error .valueError
          else
            match readXrefs fileData off.toNat fuel with
            | .error e => .error e
            | .ok entries => .ok ⟨td, entriesToLookup entries⟩

/-- PDF._validate from pdf_read.py: the nine-byte header starts %PDF- and
ends with a whitespace byte; the version string is the first eight
bytes. -/
def pdfValidate (fileData : List Nat) : Except Err (List Nat) :=
  if fileData.take 5 = bs ("%PDF-") ∧
      (match (fileData.take 9).getLast? with | some b => isWsByte b | none => false) = true then
    .ok (fileData.take 8)
  else .error .valueError

/-- PDF.__init__ from pdf_read.py: validate then read the tail, exposing
the version bytes and the read result. -/
def pdfRead (fileData : List Nat) (fuel : Nat) : Except Err (List Nat × ReadResult) :=
  match pdfValidate fileData with
  | .error e => .error e
  | .ok v =>
    match readTail fileData fuel with
    | .error e => .error e
    | .ok r => .ok (v, r)

/-- The last-object shape test of PDF.object_at: repr starts with
PDFDictionary exactly for dictionaries and streams. -/
def isDictRepr : PDFValue → Bool
  | .dict _ => true
  | .stream _ _ => true
  | _ => false

/-- The result of PDF.object_at: the parsed objects and, when the last
object is a dictionary followed by the stream keyword, the stream
indicator location. -/
structure ObjAtResult where
  objs : List PDFValue
  streamLoc : Option Nat

/-- PDF.object_at from pdf_read.py: parse the header N G obj (whitespace
separated decimal runs; a malformed header is a ValueError), tokenize the
body from just after the obj keyword, then either record a stream
indicator at the current position (dictionary-shaped last object followed
by the stream keyword) or require the endobj keyword. -/
def objectAt (fileData : List Nat) (fuel loc : Nat) : Except Err ObjAtResult :=
  let s1 := skipWs (fileData.drop loc)
  let idRun := digitRun s1
  if idRun.isEmpty then .error .valueError
  else
    let s2 := skipWs (s1.drop idRun.length)
    let genRun := digitRun s2
    if genRun.isEmpty then .error .valueError
    else
      let s3 := skipWs (s2.drop genRun.length)
      if s3.take 3 = bs ("obj") then
        match pdfIterAux fuel (s3.drop 3) [] [] with
        | .error e => .error e
        | .ok pr =>
          match pr.1.getLast? with
          | none => .error .valueError
          | some lastObj =>
            if isDictRepr lastObj = true ∧ pr.2.take 6 = bs ("stream") then
              .ok ⟨pr.1, some (fileData.length - pr.2.length)⟩
            else if pr.2.take 6 = bs ("endobj") then .ok ⟨pr.1, none⟩
            else .error .valueError
      else .error .valueError

/-- PDF.read_stream from pdf_read.py: run the stream parser at the given
location with the given length. -/
def readStreamAt (fileData : List Nat) (loc len0 : Nat) : Except Err (List Nat) :=
  match streamParse len0 (fileData.drop loc) with
  | .error e => .error e
  | .ok none => .error .valueError
  | .ok (some pr) =>
    match pr.1 with
    | .rawStream c => .ok c
    | _ => .error .valueError

/-- Number of positions at which pat occurs in data (fuel bounds the
start positions left to try; acc accumulates, keeping the recursion in
tail position). -/
def countSubAux (pat : List Nat) : Nat → List Nat → Nat → Nat
  | 0, _, acc => acc
  | _ + 1, [], acc => acc
  | fuel + 1, b :: rest, acc =>
    countSubAux pat fuel rest (acc + if (b :: rest).take pat.length = pat then 1 else 0)

/-- Number of occurrences of pat in data. -/
def countSub (data pat : List Nat) : Nat := countSubAux pat (data.length + 1) data 0

/-- The C2 scenario page: a letter-sized mediabox, empty resources, and
contents referencing the auxiliary stream object (writer slot 3, so
object 4). -/
def egPage : WPage := ⟨[0, 0, 612, 792], .dict [], .objSlot 3⟩

/-- The C2 scenario auxiliary stream object: Length 5 and the payload
ABCDE. -/
def egAuxStream : PDFValue := .stream [(.name (bs "Length"), .numeric (.intVal 5))] (bs "ABCDE")

/-- The C2 scenario writer input: one page plus one auxiliary stream
object, the default info title, and a fixed timestamp. -/
def egWInput : WInput := ⟨[egPage], [egAuxStream], bs "None", 2017, 1, 1, 12, 32, 45⟩

/-- The C2 scenario writer output bytes. -/
def egPdfBytes : List Nat := pdfWriterBytes egWInput

/-- The reader applied to the C2 scenario output, projected to the facts
the round-trip claim asserts: the recovered object count, the trailer
Size, and the trailer Root. -/
def egReadProj : Option (Nat × Option PDFValue × Option PDFValue) :=
  match pdfRead egPdfBytes 4096 with
  | .ok pr => some (pr.2.lookup.length, dictGet pr.2.trailer (bs "Size"),
      dictGet pr.2.trailer (bs "Root"))
  | .error _ => none

/-- Resolution of Root through the recovered cross-reference table: the
objects parsed at the offset the table gives for the trailer Root
reference. -/
def egRootObjs : Option (List PDFValue) :=
  match pdfRead egPdfBytes 4096 with
  | .ok pr =>
    match lookupLoc pr.2.lookup 1 0 with
    | some loc =>
      match objectAt egPdfBytes 4096 loc with
      | .ok r => some r.objs
      | .error _ => none
    | none => none
  | .error _ => none

/-- A minimal file whose trailer dictionary carries a Prev key, for the C8
witness. -/
def egPrevFile : List Nat := bs "junk\ntrailer\n<</Prev 5>>\nstartxref\n9\n%%EOF\n"

/-- The C2 scenario output up to and including the xref table, as a
literal byte list (established equal to the writer stage below). -/
def egPreTrailerLit : List Nat := [37, 80, 68, 70, 45, 49, 46, 52, 10, 49, 32, 48, 32, 111, 98,
  106, 10, 60, 60, 47, 84, 121, 112, 101, 32, 47, 67, 97, 116, 97, 108, 111, 103, 32, 47, 80,
  97, 103, 101, 115, 32, 50, 32, 48, 32, 82, 62, 62, 10, 101, 110, 100, 111, 98, 106, 10, 50,
  32, 48, 32, 111, 98, 106, 10, 60, 60, 47, 84, 121, 112, 101, 32, 47, 80, 97, 103, 101, 115,
  32, 47, 75, 105, 100, 115, 32, 91, 51, 32, 48, 32, 82, 93, 32, 47, 67, 111, 117, 110, 116,
  32, 49, 62, 62, 10, 101, 110, 100, 111, 98, 106, 10, 51, 32, 48, 32, 111, 98, 106, 10, 60,
  60, 47, 84, 121, 112, 101, 32, 47, 80, 97, 103, 101, 32, 47, 80, 97, 114, 101, 110, 116, 32,
  50, 32, 48, 32, 82, 32, 47, 82, 101, 115, 111, 117, 114, 99, 101, 115, 32, 60, 60, 62, 62,
  32, 47, 77, 101, 100, 105, 97, 66, 111, 120, 32, 91, 48, 32, 48, 32, 54, 49, 50, 32, 55, 57,
  50, 93, 32, 47, 67, 111, 110, 116, 101, 110, 116, 115, 32, 52, 32, 48, 32, 82, 62, 62, 10,
  101, 110, 100, 111, 98, 106, 10, 52, 32, 48, 32, 111, 98, 106, 10, 60, 60, 47, 76, 101, 110,
  103, 116, 104, 32, 53, 62, 62, 10, 115, 116, 114, 101, 97, 109, 10, 65, 66, 67, 68, 69, 10,
  101, 110, 100, 115, 116, 114, 101, 97, 109, 10, 101, 110, 100, 111, 98, 106, 10, 53, 32, 48,
  32, 111, 98, 106, 10, 60, 60, 47, 84, 105, 116, 108, 101, 32, 40, 78, 111, 110, 101, 41, 32,
  47, 67, 114, 101, 97, 116, 105, 111, 110, 68, 97, 116, 101, 32, 40, 68, 58, 50, 48, 49, 55,
  48, 49, 48, 49, 49, 50, 51, 50, 52, 53, 41, 62, 62, 10, 101, 110, 100, 111, 98, 106, 10, 120,
  114, 101, 102, 10, 48, 32, 54, 10, 48, 48, 48, 48, 48, 48, 48, 48, 48, 48, 32, 54, 53, 53,
  51, 53, 32, 102, 32, 10, 48, 48, 48, 48, 48, 48, 48, 48, 48, 57, 32, 48, 48, 48, 48, 48, 32,
  110, 32, 10, 48, 48, 48, 48, 48, 48, 48, 48, 53, 54, 32, 48, 48, 48, 48, 48, 32, 110, 32, 10,
  48, 48, 48, 48, 48, 48, 48, 49, 49, 49, 32, 48, 48, 48, 48, 48, 32, 110, 32, 10, 48, 48, 48,
  48, 48, 48, 48, 50, 49, 50, 32, 48, 48, 48, 48, 48, 32, 110, 32, 10, 48, 48, 48, 48, 48, 48,
  48, 50, 54, 52, 32, 48, 48, 48, 48, 48, 32, 110, 32, 10]

/-- The serialized trailer dictionary of the C2 scenario, as a literal
byte list. -/
def egTrailerDictLit : List Nat := [60, 60, 47, 83, 105, 122, 101, 32, 54, 32, 47, 82, 111,
  111, 116, 32, 49, 32, 48, 32, 82, 32, 47, 73, 110, 102, 111, 32, 53, 32, 48, 32, 82, 32, 47,
  73, 68, 32, 91, 40, 141, 85, 75, 168, 152, 94, 230, 17, 119, 112, 226, 244, 242, 15, 207, 93,
  41, 32, 40, 141, 85, 75, 168, 152, 94, 230, 17, 119, 112, 226, 244, 242, 15, 207, 93, 41, 93,
  62, 62]

/-- The C2 scenario output assembled from the stage literals. -/
def egBytesLit : List Nat :=
  egPreTrailerLit ++ bs ("trailer\n") ++ egTrailerDictLit ++ [10] ++
    bs ("startxref\n") ++ decimalBytes 330 ++ [10] ++ bs ("%%EOF\n")

lemma pairUpValues_cons (v : PDFValue) (rest : List PDFValue) :
    pairUpValues (v :: rest) = pairUpFrom (some v) rest := by
  cases rest <;> rfl

lemma dic_foldl_build (vs : List PDFValue) :
    ∀ (items : List (PDFValue × PDFValue)) (cur : Option PDFValue),
      consumerBuild (vs.foldl consumerConsume (.dic items cur)) =
        .dict (items ++ pairUpFrom cur vs) := by
  induction vs with
  | nil =>
    intro items cur
    cases cur <;> simp [consumerBuild, pairUpFrom, pairUpValues]
  | cons v rest ih =>
    intro items cur
    cases cur with
    | none =>
      simp only [List.foldl_cons, consumerConsume, ih, pairUpFrom, pairUpValues_cons]
    | some k =>
      simp only [List.foldl_cons, consumerConsume, ih, pairUpFrom, List.append_assoc,
        List.cons_append, List.nil_append]

/-- C5 counterexample: the claim says a dictionary body with an odd number
of entries raises FormatError; on the input `<</A>>` the embedded parser
instead succeeds and silently yields an empty dictionary (the unpaired key
/A is dropped), with no error of any kind. -/
theorem C5_counterexample :
    pdfParseAll (bs "<</A>>") = .ok ([.dict []], []) := by rfl

/-- C5 (amended): the Dictionary consumer pairs successive values into
(key, value) pairs in order; when the closing delimiter arrives after an
odd number of consumed values, build() silently drops the final unpaired
key and returns the dictionary of the completed pairs — no FormatError is
raised.  Stated for every sequence of consumed values, over the embedded
DictionaryConsumer operations. -/
theorem C5_dictionary_odd_entries :
    ∀ vs : List PDFValue,
      consumerBuild (vs.foldl consumerConsume (.dic [] none)) = .dict (pairUpValues vs) := by
  intro vs
  simpa using dic_foldl_build vs [] none

lemma takeWhile_all_then_stop {p : Nat → Bool} {l : List Nat} {b : Nat} (t : List Nat)
    (h1 : ∀ x ∈ l, p x = true) (h2 : p b = false) :
    (l ++ b :: t).takeWhile p = l := by
  rw [List.takeWhile_append_of_pos h1]
  simp [List.takeWhile_cons, h2]

/-- C6: for every input whose leading maximal run of numeric characters is
followed immediately by a byte outside the delimiter set, the Numeric
recognizer raises a hard ParseError rather than silently returning the
shorter match. -/
theorem C6_numeric_missing_delimiter :
    ∀ (run : List Nat) (b : Nat) (rest : List Nat),
      run ≠ [] →
      (∀ x ∈ run, isNumericByte x = true) →
      isNumericByte b = false →
      isDelimByte b = false →
      numericParse (run ++ b :: rest) = .error .parseError := by
  intro run b rest hne hall hnum hdel
  unfold numericParse
  rw [takeWhile_all_then_stop rest hall hnum]
  rw [if_neg (by simpa [List.isEmpty_iff] using hne)]
  rw [List.drop_left]
  simp [hdel]

/-- C6 witness: the theorem applied to the input 1521a from the spec. -/
theorem C6_witness : numericParse (bs "1521a") = .error .parseError :=
  C6_numeric_missing_delimiter (bs "1521") 97 [] (by decide) (by decide) (by decide) (by decide)

/-- C10: inside a literal string, every unescaped end-of-line at the
current position of the StringParser loop — LF, CR, or CRLF — is decoded
as the single byte LF (0x0A) appended to the output, for all inputs and
accumulated prefixes; in particular bare CR and CRLF are not preserved
verbatim.  (fuel counts loop iterations; one iteration handles a whole
CRLF.) -/
theorem C10_string_eol_normalized :
    ∀ (fuel : Nat) (acc rest : List Nat),
      stringLoop (fuel + 1) acc (13 :: 10 :: rest) = stringLoop fuel (acc ++ [10]) rest ∧
      stringLoop (fuel + 1) acc (10 :: rest) = stringLoop fuel (acc ++ [10]) rest ∧
      (rest.head? ≠ some 10 →
        stringLoop (fuel + 1) acc (13 :: rest) = stringLoop fuel (acc ++ [10]) rest) := by
  intro fuel acc rest
  refine ⟨rfl, rfl, ?_⟩
  intro h
  match rest with
  | [] => rfl
  | b :: t =>
    have hb : b ≠ 10 := by simpa using h
    show (match b :: t with
      | 10 :: r2 => stringLoop fuel (acc ++ [10]) r2
      | _ => stringLoop fuel (acc ++ [10]) (b :: t)) = stringLoop fuel (acc ++ [10]) (b :: t)
    split
    · simp_all
    · rfl

/-- C10 witness: the conditional CR conjunct applied at a concrete input. -/
theorem C10_witness :
    stringLoop 5 [] (13 :: [97]) = stringLoop 4 ([] ++ [10]) [97] :=
  (C10_string_eol_normalized 4 [] [97]).2.2 (by decide)

/-- C4 counterexample: the claim says stream completion, after reading the
Length payload bytes, requires an end-of-line marker before the literal
endstream; on Length 5 and body stream-LF-8gsd5-endstream, which has no
marker between payload and endstream, the embedded StreamParser succeeds
instead of raising an error (this lenient behavior is also pinned by the
repository test suite). -/
theorem C4_counterexample :
    streamParse 5 (bs "stream\n8gsd5endstream") =
      .ok (some (.rawStream (bs "8gsd5"), 21)) := by rfl

lemma atEolMarker_drop_eq {data : List Nat} {i : Nat} {t : List Nat}
    (h : data.drop i = t) : atEolMarker data i = atEolMarker t 0 := by
  unfold atEolMarker
  rw [h]
  rfl

lemma streamParse_lf_accepts (payload eol rest : List Nat) (L : Nat)
    (hL : payload.length = L)
    (heol : eol = [] ∨ eol = [10] ∨ eol = [13] ∨ eol = [13, 10]) :
    streamParse L (bs ("stream") ++ 10 :: (payload ++ (eol ++ (bs ("endstream") ++ rest)))) =
      .ok (some (.rawStream payload, 7 + L + eol.length + 9)) := by
  have hdata : bs ("stream") ++ 10 :: (payload ++ (eol ++ (bs ("endstream") ++ rest))) =
      (bs ("stream") ++ [10]) ++ (payload ++ (eol ++ (bs ("endstream") ++ rest))) := by
    simp
  unfold streamParse
  rw [hdata]
  rw [List.take_append_of_le_length (by simp [bs])]
  rw [if_pos (by simp [bs, List.take_left])]
  have hdrop6 : ((bs ("stream") ++ [10]) ++ (payload ++ (eol ++ (bs ("endstream") ++ rest)))).drop 6 =
      10 :: (payload ++ (eol ++ (bs ("endstream") ++ rest))) := by
    have : (bs ("stream") ++ [10]) ++ (payload ++ (eol ++ (bs ("endstream") ++ rest))) =
        bs ("stream") ++ (10 :: (payload ++ (eol ++ (bs ("endstream") ++ rest)))) := by simp
    rw [this]
    exact List.drop_left' (by simp [bs])
  have hlf : (((bs ("stream") ++ [10]) ++ (payload ++ (eol ++ (bs ("endstream") ++ rest)))).drop 6).head? = some 10 := by
    rw [hdrop6]; rfl
  rw [if_pos (Or.inl hlf)]
  rw [if_pos hlf]
  have hdrop7 : ((bs ("stream") ++ [10]) ++ (payload ++ (eol ++ (bs ("endstream") ++ rest)))).drop 7 =
      payload ++ (eol ++ (bs ("endstream") ++ rest)) :=
    List.drop_left' (by simp [bs])
  have hlen : ((bs ("stream") ++ [10]) ++ (payload ++ (eol ++ (bs ("endstream") ++ rest)))).length =
      7 + (L + (eol.length + (9 + rest.length))) := by
    simp [bs, hL.symm]
    omega
  rw [if_neg (by rw [hlen]; omega)]
  have hpay : (((bs ("stream") ++ [10]) ++ (payload ++ (eol ++ (bs ("endstream") ++ rest)))).drop 7).take L = payload := by
    rw [hdrop7]
    exact List.take_left' hL
  have hdropEnd : ((bs ("stream") ++ [10]) ++ (payload ++ (eol ++ (bs ("endstream") ++ rest)))).drop (7 + L) =
      eol ++ (bs ("endstream") ++ rest) := by
    rw [← List.drop_drop, hdrop7]
    exact List.drop_left' hL
  have heol2 : atEolMarker ((bs ("stream") ++ [10]) ++ (payload ++ (eol ++ (bs ("endstream") ++ rest)))) (7 + L) = eol.length := by
    rw [atEolMarker_drop_eq hdropEnd]
    rcases heol with h | h | h | h <;> subst h <;> rfl
  rw [heol2]
  rw [if_neg (by rw [hlen]; omega)]
  have hdropEnd2 : ((bs ("stream") ++ [10]) ++ (payload ++ (eol ++ (bs ("endstream") ++ rest)))).drop (7 + L + eol.length) =
      bs ("endstream") ++ rest := by
    rw [← List.drop_drop, hdropEnd]
    exact List.drop_left' rfl
  rw [if_pos (by rw [hdropEnd2]; exact List.take_left' rfl)]
  rw [hpay]

lemma streamParse_crlf_accepts (payload eol rest : List Nat) (L : Nat)
    (hL : payload.length = L)
    (heol : eol = [] ∨ eol = [10] ∨ eol = [13] ∨ eol = [13, 10]) :
    streamParse L (bs ("stream") ++ 13 :: 10 :: (payload ++ (eol ++ (bs ("endstream") ++ rest)))) =
      .ok (some (.rawStream payload, 8 + L + eol.length + 9)) := by
  have hdata : bs ("stream") ++ 13 :: 10 :: (payload ++ (eol ++ (bs ("endstream") ++ rest))) =
      (bs ("stream") ++ [13, 10]) ++ (payload ++ (eol ++ (bs ("endstream") ++ rest))) := by
    simp
  unfold streamParse
  rw [hdata]
  rw [List.take_append_of_le_length (by simp [bs])]
  rw [if_pos (by simp [bs, List.take_append_of_le_length, List.take_left])]
  have hdrop6 : ((bs ("stream") ++ [13, 10]) ++ (payload ++ (eol ++ (bs ("endstream") ++ rest)))).drop 6 =
      13 :: 10 :: (payload ++ (eol ++ (bs ("endstream") ++ rest))) := by
    have : (bs ("stream") ++ [13, 10]) ++ (payload ++ (eol ++ (bs ("endstream") ++ rest))) =
        bs ("stream") ++ (13 :: 10 :: (payload ++ (eol ++ (bs ("endstream") ++ rest)))) := by simp
    rw [this]
    exact List.drop_left' (by simp [bs])
  have hnotlf : ¬ ((((bs ("stream") ++ [13, 10]) ++ (payload ++ (eol ++ (bs ("endstream") ++ rest)))).drop 6).head? = some 10) := by
    rw [hdrop6]; simp
  have hcrlf : (((bs ("stream") ++ [13, 10]) ++ (payload ++ (eol ++ (bs ("endstream") ++ rest)))).drop 6).take 2 = [13, 10] := by
    rw [hdrop6]; rfl
  rw [if_pos (Or.inr hcrlf)]
  rw [if_neg hnotlf]
  have hdrop8 : ((bs ("stream") ++ [13, 10]) ++ (payload ++ (eol ++ (bs ("endstream") ++ rest)))).drop 8 =
      payload ++ (eol ++ (bs ("endstream") ++ rest)) :=
    List.drop_left' (by simp [bs])
  have hlen : ((bs ("stream") ++ [13, 10]) ++ (payload ++ (eol ++ (bs ("endstream") ++ rest)))).length =
      8 + (L + (eol.length + (9 + rest.length))) := by
    simp [bs, hL.symm]
    omega
  rw [if_neg (by rw [hlen]; omega)]
  have hpay : (((bs ("stream") ++ [13, 10]) ++ (payload ++ (eol ++ (bs ("endstream") ++ rest)))).drop 8).take L = payload := by
    rw [hdrop8]
    exact List.take_left' hL
  have hdropEnd : ((bs ("stream") ++ [13, 10]) ++ (payload ++ (eol ++ (bs ("endstream") ++ rest)))).drop (8 + L) =
      eol ++ (bs ("endstream") ++ rest) := by
    rw [← List.drop_drop, hdrop8]
    exact List.drop_left' hL
  have heol2 : atEolMarker ((bs ("stream") ++ [13, 10]) ++ (payload ++ (eol ++ (bs ("endstream") ++ rest)))) (8 + L) = eol.length := by
    rw [atEolMarker_drop_eq hdropEnd]
    rcases heol with h | h | h | h <;> subst h <;> rfl
  rw [heol2]
  rw [if_neg (by rw [hlen]; omega)]
  have hdropEnd2 : ((bs ("stream") ++ [13, 10]) ++ (payload ++ (eol ++ (bs ("endstream") ++ rest)))).drop (8 + L + eol.length) =
      bs ("endstream") ++ rest := by
    rw [← List.drop_drop, hdropEnd]
    exact List.drop_left' rfl
  rw [if_pos (by rw [hdropEnd2]; exact List.take_left' rfl)]
  rw [hpay]

/-- C4 (amended): for a stream of known concrete Length L, stream
completion accepts either permitted opening after the keyword — LF or
CRLF — reads exactly L payload bytes after it, and then accepts an
optional end-of-line marker (none, LF, CR, or CRLF) followed by the
literal endstream, returning the payload; the claim overstates by
requiring the marker.  The second conjunct pins the markerless CRLF
example stream-CRLF-8gsd5-endstream yielding 8gsd5 and consuming 22
bytes; the third keeps the claim example that a wrong trailing marker is
a format error. -/
theorem C4_stream_completion :
    (∀ (opn payload eol rest : List Nat) (L : Nat),
      payload.length = L →
      (opn = [10] ∨ opn = [13, 10]) →
      (eol = [] ∨ eol = [10] ∨ eol = [13] ∨ eol = [13, 10]) →
      streamParse L (bs ("stream") ++ (opn ++ (payload ++ (eol ++ (bs ("endstream") ++ rest))))) =
        .ok (some (.rawStream payload, 6 + opn.length + L + eol.length + 9))) ∧
    streamParse 5 (bs "stream\r\n8gsd5endstream") = .ok (some (.rawStream (bs "8gsd5"), 22)) ∧
    streamParse 5 (bs "stream\n8gsd5xendstream") = .error .parseError := by
  refine ⟨?_, rfl, rfl⟩
  intro opn payload eol rest L hL hopn heol
  rcases hopn with h | h <;> subst h
  · simpa using streamParse_lf_accepts payload eol rest L hL heol
  · simpa using streamParse_crlf_accepts payload eol rest L hL heol

/-- C4 witness: the positive branch of the amended theorem applied with
the CRLF opening and no end-of-line marker before endstream (Length 5,
body stream-CRLF-8gsd5-endstream followed by a dictionary opener). -/
theorem C4_witness :
    streamParse 5 (bs ("stream") ++ ([13, 10] ++ (bs "8gsd5" ++ ([] ++ (bs ("endstream") ++ bs "<<"))))) =
      .ok (some (.rawStream (bs "8gsd5"), 22)) := by
  have h := C4_stream_completion.1 [13, 10] (bs "8gsd5") [] (bs "<<") 5 (by decide)
    (Or.inr rfl) (Or.inl rfl)
  simpa using h

lemma ws_not_digit {w : Nat} (h : isWsByte w = true) : isDigitByte w = false := by
  simp only [isWsByte, Bool.or_eq_true, beq_iff_eq] at h
  rcases h with ((((h | h) | h) | h) | h) | h <;> subst h <;> rfl

lemma digit_ge_48 {b : Nat} (h : isDigitByte b = true) : 48 ≤ b ∧ b ≤ 57 := by
  simp only [isDigitByte, Bool.and_eq_true, decide_eq_true_eq] at h
  exact h

lemma parseNumberAt_spec {data : List Nat} {index : Nat} {N : List Nat} {w : Nat}
    (t : List Nat) (hdrop : data.drop index = N ++ w :: t)
    (hN : ∀ x ∈ N, isDigitByte x = true) (hNe : N ≠ []) (hw : isWsByte w = true) :
    parseNumberAt data index = .ok (some (natOfDigits N, index + N.length + 1)) := by
  have hrun : digitRun (data.drop index) = N := by
    rw [hdrop]
    exact takeWhile_all_then_stop t hN (ws_not_digit hw)
  have hdrop2 : data.drop (index + N.length) = w :: t := by
    rw [← List.drop_drop, hdrop, List.drop_left]
  unfold parseNumberAt
  rw [hrun]
  simp only [hdrop2]
  simp [hw, List.isEmpty_iff, hNe]

lemma objectIdParse_spec (N G : List Nat) (w1 w2 d : Nat) (rest : List Nat)
    (hNe : N ≠ []) (hGe : G ≠ [])
    (hN : ∀ x ∈ N, isDigitByte x = true) (hG : ∀ x ∈ G, isDigitByte x = true)
    (hw1 : isWsByte w1 = true) (hw2 : isWsByte w2 = true) (hd : isDelimByte d = true) :
    objectIdParse (N ++ w1 :: (G ++ w2 :: 82 :: d :: rest)) =
      .ok (some (.val (.objectId (natOfDigits N) (natOfDigits G))
        (N.length + G.length + 3))) := by
  set data := N ++ w1 :: (G ++ w2 :: 82 :: d :: rest) with hdata
  have hshape1 : data = (N ++ [w1]) ++ (G ++ w2 :: 82 :: d :: rest) := by simp [hdata]
  have hshape2 : data = ((N ++ [w1]) ++ (G ++ [w2])) ++ 82 :: d :: rest := by simp [hdata]
  have hp1 : parseNumberAt data 0 = .ok (some (natOfDigits N, 0 + N.length + 1)) :=
    parseNumberAt_spec (G ++ w2 :: 82 :: d :: rest) (by simp [hdata]) hN hNe hw1
  have hp2 : parseNumberAt data (0 + N.length + 1) =
      .ok (some (natOfDigits G, 0 + N.length + 1 + G.length + 1)) := by
    refine parseNumberAt_spec (82 :: d :: rest) ?_ hG hGe hw2
    rw [hshape1]
    refine List.drop_left' ?_
    simp [Nat.add_comm]
  have hlen : data.length = N.length + G.length + 4 + rest.length := by
    simp [hdata]
    omega
  have hdropR : data.drop (0 + N.length + 1 + G.length + 1) = 82 :: d :: rest := by
    rw [hshape2]
    refine List.drop_left' ?_
    simp
    omega
  have hdropD : data.drop (0 + N.length + 1 + G.length + 1 + 1) = d :: rest := by
    rw [← List.drop_drop, hdropR]
    rfl
  unfold objectIdParse
  rw [hp1]
  simp only [hp2]
  rw [if_neg (by rw [hlen]; omega)]
  rw [if_pos ⟨by rw [hdropR]; rfl,
      by unfold delimAtOrEnd; rw [hdropD]; simpa using hd⟩]
  have harith : 0 + N.length + 1 + G.length + 1 + 1 = N.length + G.length + 3 := by omega
  rw [harith]

/-- C3: on every input whose next bytes match the Reference production —
a nonempty decimal run, a whitespace byte, a nonempty decimal run, a
whitespace byte, the byte R, and a delimiter byte — the recognizer
dispatch of PDFParser yields the single Reference value consuming the
whole production (digits, two separators and R), and never the Numeric
reading of the leading digit run: the Reference recognizer is consulted
before the Numeric recognizer and wins whenever applicable. -/
theorem C3_reference_beats_numeric :
    ∀ (N G : List Nat) (w1 w2 d : Nat) (rest : List Nat),
      N ≠ [] → G ≠ [] →
      (∀ x ∈ N, isDigitByte x = true) → (∀ x ∈ G, isDigitByte x = true) →
      isWsByte w1 = true → isWsByte w2 = true → isDelimByte d = true →
      findParser (N ++ w1 :: (G ++ w2 :: 82 :: d :: rest)) =
        .ok (some (.val (.objectId (natOfDigits N) (natOfDigits G))
          (N.length + G.length + 3))) := by
  intro N G w1 w2 d rest hNe hGe hN hG hw1 hw2 hd
  obtain ⟨n0, N2, rfl⟩ : ∃ n0 N2, N = n0 :: N2 := by
    cases N with
    | nil => exact absurd rfl hNe
    | cons a l => exact ⟨a, l, rfl⟩
  have hn0 := digit_ge_48 (hN n0 (by simp))
  have hbool : booleanParse ((n0 :: N2) ++ w1 :: (G ++ w2 :: 82 :: d :: rest)) = .ok none := by
    unfold booleanParse
    rw [if_neg, if_neg]
    · intro hcon
      have := hcon.1
      simp only [List.cons_append, List.take_succ_cons, bs] at this
      have : n0 = 102 := by
        have h2 := congrArg (fun l => l.head?) this
        simpa using h2
      omega
    · intro hcon
      have := hcon.1
      simp only [List.cons_append, List.take_succ_cons, bs] at this
      have : n0 = 116 := by
        have h2 := congrArg (fun l => l.head?) this
        simpa using h2
      omega
  have hoid := objectIdParse_spec (n0 :: N2) G w1 w2 d rest hNe hGe hN hG hw1 hw2 hd
  unfold findParser
  rw [hbool, hoid]

/-- C3 witness: the theorem applied to the spec example input 512 12 R
followed by the delimiter byte of the character left angle, yielding
Reference(512, 12) and consuming 8 bytes. -/
theorem C3_witness : findParser (bs "512 12 R<") = .ok (some (.val (.objectId 512 12) 8)) :=
  C3_reference_beats_numeric (bs "512") (bs "12") 32 32 60 []
    (by decide) (by decide) (by decide) (by decide) (by decide) (by decide) (by decide)

lemma cyc_resolve_none : ∀ fuel, resolveRun cycFile cycLookup fuel (.fullAt 10) = none ∧
    resolveRun cycFile cycLookup fuel (.fullAt 20) = none := by
  intro fuel
  induction fuel using Nat.strong_induction_on with
  | _ fuel ih =>
    match fuel with
    | 0 => exact ⟨rfl, rfl⟩
    | 1 => exact ⟨rfl, rfl⟩
    | 2 => exact ⟨rfl, rfl⟩
    | 3 => exact ⟨rfl, rfl⟩
    | (f + 4) =>
      obtain ⟨h10, h20⟩ := ih f (by omega)
      simp only [cycLookup] at h10 h20
      refine ⟨?_, ?_⟩
      · simp [resolveRun, cycFile, cycLookup, lookupLoc, h20]
      · simp [resolveRun, cycFile, cycLookup, lookupLoc, h10]

/-- C1: the claimed cycle guard does not exist in the code.  On the
concrete cyclic object graph cycFile / cycLookup (two dictionaries
referencing each other), the embedded full_object_at diverges: for every
fuel bound the fuel-indexed interpreter of the recursion fails to return,
so the recursion of the source, which has no active-path tracking at all,
never terminates (in Python it dies with a RecursionError) instead of
substituting an unresolved-Reference marker. -/
theorem C1_cyclic_resolution_diverges :
    ∀ fuel, fullObjectAtR cycFile cycLookup fuel 10 = none := by
  intro fuel
  unfold fullObjectAtR
  rw [(cyc_resolve_none fuel).1]

lemma rr_fullAt (file : Nat → PDFValue) (lookup : List ((Nat × Nat) × Nat)) (f loc : Nat) :
    resolveRun file lookup (f + 1) (.fullAt loc) =
      resolveRun file lookup f (.popul (file loc)) := rfl

lemma rr_popul_array (file : Nat → PDFValue) (lookup : List ((Nat × Nat) × Nat)) (f : Nat)
    (xs : List PDFValue) :
    resolveRun file lookup (f + 1) (.popul (.array xs)) =
      (match resolveRun file lookup f (.populList xs) with
       | some (.objs l) => some (.obj (.array l))
       | _ => none) := rfl

lemma rr_popul_dict (file : Nat → PDFValue) (lookup : List ((Nat × Nat) × Nat)) (f : Nat)
    (ps : List (PDFValue × PDFValue)) :
    resolveRun file lookup (f + 1) (.popul (.dict ps)) =
      (match resolveRun file lookup f (.populPairs ps) with
       | some (.pairs l) => some (.obj (.dict l))
       | _ => none) := rfl

lemma rr_mkNew_objectId (file : Nat → PDFValue) (lookup : List ((Nat × Nat) × Nat)) (f n g : Nat) :
    resolveRun file lookup (f + 1) (.mkNew (.objectId n g)) =
      (match lookupLoc lookup n g with
       | none => some (.obj .null)
       | some loc => resolveRun file lookup f (.fullAt loc)) := rfl

lemma rr_mkNew_array (file : Nat → PDFValue) (lookup : List ((Nat × Nat) × Nat)) (f : Nat)
    (xs : List PDFValue) :
    resolveRun file lookup (f + 1) (.mkNew (.array xs)) =
      resolveRun file lookup f (.popul (.array xs)) := rfl

lemma rr_mkNew_dict (file : Nat → PDFValue) (lookup : List ((Nat × Nat) × Nat)) (f : Nat)
    (ps : List (PDFValue × PDFValue)) :
    resolveRun file lookup (f + 1) (.mkNew (.dict ps)) =
      resolveRun file lookup f (.popul (.dict ps)) := rfl

lemma rr_populList_cons (file : Nat → PDFValue) (lookup : List ((Nat × Nat) × Nat)) (f : Nat)
    (x : PDFValue) (xs : List PDFValue) :
    resolveRun file lookup (f + 1) (.populList (x :: xs)) =
      (match resolveRun file lookup f (.mkNew x) with
       | some (.obj o) =>
         match resolveRun file lookup f (.populList xs) with
         | some (.objs l) => some (.objs (o :: l))
         | _ => none
       | _ => none) := rfl

lemma rr_populPairs_cons (file : Nat → PDFValue) (lookup : List ((Nat × Nat) × Nat)) (f : Nat)
    (k v : PDFValue) (ps : List (PDFValue × PDFValue)) :
    resolveRun file lookup (f + 1) (.populPairs ((k, v) :: ps)) =
      (match resolveRun file lookup f (.mkNew v) with
       | some (.obj o) =>
         match resolveRun file lookup f (.populPairs ps) with
         | some (.pairs l) => some (.pairs ((k, o) :: l))
         | _ => none
       | _ => none) := rfl

lemma resolveRun_mono (file : Nat → PDFValue) (lookup : List ((Nat × Nat) × Nat)) :
    ∀ fuel c r, resolveRun file lookup fuel c = some r →
      resolveRun file lookup (fuel + 1) c = some r := by
  intro fuel
  induction fuel with
  | zero => intro c r h; simp [resolveRun] at h
  | succ f ih =>
    intro c r h
    cases c with
    | fullAt loc =>
      rw [rr_fullAt] at h
      rw [rr_fullAt]
      exact ih _ _ h
    | popul obj =>
      cases obj with
      | array xs =>
        rw [rr_popul_array] at h
        rw [rr_popul_array]
        cases hx : resolveRun file lookup f (.populList xs) with
        | none => rw [hx] at h; simp at h
        | some rout => rw [hx] at h; rw [ih _ _ hx]; exact h
      | dict ps =>
        rw [rr_popul_dict] at h
        rw [rr_popul_dict]
        cases hx : resolveRun file lookup f (.populPairs ps) with
        | none => rw [hx] at h; simp at h
        | some rout => rw [hx] at h; rw [ih _ _ hx]; exact h
      | boolean b => exact h
      | numeric v => exact h
      | string c2 => exact h
      | name c2 => exact h
      | null => exact h
      | stream i c2 => exact h
      | rawStream c2 => exact h
      | objectId n g => exact h
      | objSlot i => exact h
    | mkNew obj =>
      cases obj with
      | objectId n g =>
        rw [rr_mkNew_objectId] at h
        rw [rr_mkNew_objectId]
        cases hl : lookupLoc lookup n g with
        | none => rw [hl] at h; exact h
        | some loc => rw [hl] at h; exact ih _ _ h
      | array xs =>
        rw [rr_mkNew_array] at h
        rw [rr_mkNew_array]
        exact ih _ _ h
      | dict ps =>
        rw [rr_mkNew_dict] at h
        rw [rr_mkNew_dict]
        exact ih _ _ h
      | boolean b => exact h
      | numeric v => exact h
      | string c2 => exact h
      | name c2 => exact h
      | null => exact h
      | stream i c2 => exact h
      | rawStream c2 => exact h
      | objSlot i => exact h
    | populList xs =>
      cases xs with
      | nil => exact h
      | cons x xs2 =>
        rw [rr_populList_cons] at h
        rw [rr_populList_cons]
        cases hx : resolveRun file lookup f (.mkNew x) with
        | none => rw [hx] at h; simp at h
        | some r1 =>
          rw [hx] at h
          rw [ih _ _ hx]
          cases r1 with
          | obj o =>
            cases hy : resolveRun file lookup f (.populList xs2) with
            | none => rw [hy] at h; simp at h
            | some r2 => rw [hy] at h; rw [ih _ _ hy]; exact h
          | objs l => simp at h
          | pairs l => simp at h
    | populPairs ps =>
      cases ps with
      | nil => exact h
      | cons p ps2 =>
        obtain ⟨k, v⟩ := p
        rw [rr_populPairs_cons] at h
        rw [rr_populPairs_cons]
        cases hx : resolveRun file lookup f (.mkNew v) with
        | none => rw [hx] at h; simp at h
        | some r1 =>
          rw [hx] at h
          rw [ih _ _ hx]
          cases r1 with
          | obj o =>
            cases hy : resolveRun file lookup f (.populPairs ps2) with
            | none => rw [hy] at h; simp at h
            | some r2 => rw [hy] at h; rw [ih _ _ hy]; exact h
          | objs l => simp at h
          | pairs l => simp at h

lemma resolveRun_mono_le (file : Nat → PDFValue) (lookup : List ((Nat × Nat) × Nat))
    {fuel F : Nat} (hle : fuel ≤ F) {c : RCall} {r : ROut}
    (h : resolveRun file lookup fuel c = some r) :
    resolveRun file lookup F c = some r := by
  obtain ⟨k, rfl⟩ : ∃ k, F = fuel + k := ⟨F - fuel, by omega⟩
  clear hle
  induction k with
  | zero => exact h
  | succ k ihk => exact resolveRun_mono file lookup (fuel + k) c r ihk

lemma resolveRun_popul_shape {file : Nat → PDFValue} {lookup : List ((Nat × Nat) × Nat)}
    {fuel : Nat} {x : PDFValue} {r : ROut}
    (h : resolveRun file lookup fuel (.popul x) = some r) : ∃ o, r = .obj o := by
  cases fuel with
  | zero => simp [resolveRun] at h
  | succ f =>
    cases x with
    | array xs =>
      rw [rr_popul_array] at h
      cases hx : resolveRun file lookup f (.populList xs) with
      | none => rw [hx] at h; simp at h
      | some rout =>
        rw [hx] at h
        cases rout with
        | obj o => simp at h
        | objs l => exact ⟨_, (Option.some.inj h).symm⟩
        | pairs l => simp at h
    | dict ps =>
      rw [rr_popul_dict] at h
      cases hx : resolveRun file lookup f (.populPairs ps) with
      | none => rw [hx] at h; simp at h
      | some rout =>
        rw [hx] at h
        cases rout with
        | obj o => simp at h
        | objs l => simp at h
        | pairs l => exact ⟨_, (Option.some.inj h).symm⟩
    | boolean b => exact ⟨_, (Option.some.inj h).symm⟩
    | numeric v => exact ⟨_, (Option.some.inj h).symm⟩
    | string c2 => exact ⟨_, (Option.some.inj h).symm⟩
    | name c2 => exact ⟨_, (Option.some.inj h).symm⟩
    | null => exact ⟨_, (Option.some.inj h).symm⟩
    | stream i c2 => exact ⟨_, (Option.some.inj h).symm⟩
    | rawStream c2 => exact ⟨_, (Option.some.inj h).symm⟩
    | objectId n g => exact ⟨_, (Option.some.inj h).symm⟩
    | objSlot i => exact ⟨_, (Option.some.inj h).symm⟩

lemma resolveRun_fullAt_shape {file : Nat → PDFValue} {lookup : List ((Nat × Nat) × Nat)}
    {fuel : Nat} {loc : Nat} {r : ROut}
    (h : resolveRun file lookup fuel (.fullAt loc) = some r) : ∃ o, r = .obj o := by
  cases fuel with
  | zero => simp [resolveRun] at h
  | succ f =>
    rw [rr_fullAt] at h
    exact resolveRun_popul_shape h

lemma resolve_refines (file : Nat → PDFValue) (lookup : List ((Nat × Nat) × Nat)) (F : Nat) :
    ∀ fuel, fuel ≤ F → ∀ c r, resolveRun file lookup fuel c = some r →
      (match c with
       | .fullAt _ => True
       | .popul obj => r = .obj (replaceNestedRefs (specResolveRef file lookup F) obj)
       | .mkNew obj => r = .obj (replaceItem (specResolveRef file lookup F) obj)
       | .populList xs => r = .objs (replaceItemList (specResolveRef file lookup F) xs)
       | .populPairs ps => r = .pairs (replaceItemPairs (specResolveRef file lookup F) ps)) := by
  intro fuel
  induction fuel with
  | zero => intro _ c r h; simp [resolveRun] at h
  | succ f ih =>
    intro hle c r h
    have hle2 : f ≤ F := by omega
    cases c with
    | fullAt loc => trivial
    | popul obj =>
      cases obj with
      | array xs =>
        rw [rr_popul_array] at h
        cases hx : resolveRun file lookup f (.populList xs) with
        | none => rw [hx] at h; simp at h
        | some rout =>
          rw [hx] at h
          have hr : rout = .objs (replaceItemList (specResolveRef file lookup F) xs) :=
            ih hle2 (.populList xs) rout hx
          subst hr
          have h2 : some (ROut.obj (.array (replaceItemList (specResolveRef file lookup F) xs))) =
              some r := h
          rw [← Option.some.inj h2]
          simp [replaceNestedRefs]
      | dict ps =>
        rw [rr_popul_dict] at h
        cases hx : resolveRun file lookup f (.populPairs ps) with
        | none => rw [hx] at h; simp at h
        | some rout =>
          rw [hx] at h
          have hr : rout = .pairs (replaceItemPairs (specResolveRef file lookup F) ps) :=
            ih hle2 (.populPairs ps) rout hx
          subst hr
          have h2 : some (ROut.obj (.dict (replaceItemPairs (specResolveRef file lookup F) ps))) =
              some r := h
          rw [← Option.some.inj h2]
          simp [replaceNestedRefs]
      | boolean b =>
        have h2 : some (ROut.obj (.boolean b)) = some r := h
        rw [← Option.some.inj h2]; simp [replaceNestedRefs]
      | numeric v =>
        have h2 : some (ROut.obj (.numeric v)) = some r := h
        rw [← Option.some.inj h2]; simp [replaceNestedRefs]
      | string c2 =>
        have h2 : some (ROut.obj (.string c2)) = some r := h
        rw [← Option.some.inj h2]; simp [replaceNestedRefs]
      | name c2 =>
        have h2 : some (ROut.obj (.name c2)) = some r := h
        rw [← Option.some.inj h2]; simp [replaceNestedRefs]
      | null =>
        have h2 : some (ROut.obj .null) = some r := h
        rw [← Option.some.inj h2]; simp [replaceNestedRefs]
      | stream i c2 =>
        have h2 : some (ROut.obj (.stream i c2)) = some r := h
        rw [← Option.some.inj h2]; simp [replaceNestedRefs]
      | rawStream c2 =>
        have h2 : some (ROut.obj (.rawStream c2)) = some r := h
        rw [← Option.some.inj h2]; simp [replaceNestedRefs]
      | objectId n g =>
        have h2 : some (ROut.obj (.objectId n g)) = some r := h
        rw [← Option.some.inj h2]; simp [replaceNestedRefs]
      | objSlot i =>
        have h2 : some (ROut.obj (.objSlot i)) = some r := h
        rw [← Option.some.inj h2]; simp [replaceNestedRefs]
    | mkNew obj =>
      cases obj with
      | objectId n g =>
        rw [rr_mkNew_objectId] at h
        cases hl : lookupLoc lookup n g with
        | none =>
          rw [hl] at h
          have h2 : some (ROut.obj .null) = some r := h
          rw [← Option.some.inj h2]
          simp [replaceItem, specResolveRef, hl]
        | some loc =>
          rw [hl] at h
          obtain ⟨o, rfl⟩ := resolveRun_fullAt_shape h
          have hF := resolveRun_mono_le file lookup hle2 h
          simp [replaceItem, specResolveRef, hl, hF]
      | array xs =>
        rw [rr_mkNew_array] at h
        have hr : r = .obj (replaceNestedRefs (specResolveRef file lookup F) (.array xs)) :=
          ih hle2 (.popul (.array xs)) r h
        rw [hr]
        simp [replaceNestedRefs, replaceItem]
      | dict ps =>
        rw [rr_mkNew_dict] at h
        have hr : r = .obj (replaceNestedRefs (specResolveRef file lookup F) (.dict ps)) :=
          ih hle2 (.popul (.dict ps)) r h
        rw [hr]
        simp [replaceNestedRefs, replaceItem]
      | boolean b =>
        have h2 : some (ROut.obj (.boolean b)) = some r := h
        rw [← Option.some.inj h2]; simp [replaceItem]
      | numeric v =>
        have h2 : some (ROut.obj (.numeric v)) = some r := h
        rw [← Option.some.inj h2]; simp [replaceItem]
      | string c2 =>
        have h2 : some (ROut.obj (.string c2)) = some r := h
        rw [← Option.some.inj h2]; simp [replaceItem]
      | name c2 =>
        have h2 : some (ROut.obj (.name c2)) = some r := h
        rw [← Option.some.inj h2]; simp [replaceItem]
      | null =>
        have h2 : some (ROut.obj .null) = some r := h
        rw [← Option.some.inj h2]; simp [replaceItem]
      | stream i c2 =>
        have h2 : some (ROut.obj (.stream i c2)) = some r := h
        rw [← Option.some.inj h2]; simp [replaceItem]
      | rawStream c2 =>
        have h2 : some (ROut.obj (.rawStream c2)) = some r := h
        rw [← Option.some.inj h2]; simp [replaceItem]
      | objSlot i =>
        have h2 : some (ROut.obj (.objSlot i)) = some r := h
        rw [← Option.some.inj h2]; simp [replaceItem]
    | populList xs =>
      cases xs with
      | nil =>
        have h2 : some (ROut.objs []) = some r := h
        rw [← Option.some.inj h2]; simp [replaceItemList]
      | cons x xs2 =>
        rw [rr_populList_cons] at h
        cases hx : resolveRun file lookup f (.mkNew x) with
        | none => rw [hx] at h; simp at h
        | some r1 =>
          rw [hx] at h
          have hr1 : r1 = .obj (replaceItem (specResolveRef file lookup F) x) :=
            ih hle2 (.mkNew x) r1 hx
          subst hr1
          cases hy : resolveRun file lookup f (.populList xs2) with
          | none => rw [hy] at h; simp at h
          | some r2 =>
            rw [hy] at h
            have hr2 : r2 = .objs (replaceItemList (specResolveRef file lookup F) xs2) :=
              ih hle2 (.populList xs2) r2 hy
            subst hr2
            have h2 : some (ROut.objs (replaceItem (specResolveRef file lookup F) x ::
                replaceItemList (specResolveRef file lookup F) xs2)) = some r := h
            rw [← Option.some.inj h2]
            simp [replaceItemList]
    | populPairs ps =>
      cases ps with
      | nil =>
        have h2 : some (ROut.pairs []) = some r := h
        rw [← Option.some.inj h2]; simp [replaceItemPairs]
      | cons p ps2 =>
        obtain ⟨k, v⟩ := p
        rw [rr_populPairs_cons] at h
        cases hx : resolveRun file lookup f (.mkNew v) with
        | none => rw [hx] at h; simp at h
        | some r1 =>
          rw [hx] at h
          have hr1 : r1 = .obj (replaceItem (specResolveRef file lookup F) v) :=
            ih hle2 (.mkNew v) r1 hx
          subst hr1
          cases hy : resolveRun file lookup f (.populPairs ps2) with
          | none => rw [hy] at h; simp at h
          | some r2 =>
            rw [hy] at h
            have hr2 : r2 = .pairs (replaceItemPairs (specResolveRef file lookup F) ps2) :=
              ih hle2 (.populPairs ps2) r2 hy
            subst hr2
            have h2 : some (ROut.pairs ((k, replaceItem (specResolveRef file lookup F) v) ::
                replaceItemPairs (specResolveRef file lookup F) ps2)) = some r := h
            rw [← Option.some.inj h2]
            simp [replaceItemPairs]

/-- C7: whenever the embedded full_object_at terminates (returns within
some fuel), its result is exactly the parsed value with every Reference
nested anywhere inside it replaced according to the cross-reference
table — a Reference with no table entry becomes Null, and one with an
entry becomes the fully resolved object at the target offset — keys and
all other leaves unchanged, as described by the specification-side
transformer replaceNestedRefs with specResolveRef. -/
theorem C7_full_object_resolves_references :
    ∀ (file : Nat → PDFValue) (lookup : List ((Nat × Nat) × Nat)) (fuel loc : Nat)
      (out : PDFValue),
      fullObjectAtR file lookup fuel loc = some out →
      out = replaceNestedRefs (specResolveRef file lookup fuel) (file loc) := by
  intro file lookup fuel loc out h
  unfold fullObjectAtR at h
  cases hx : resolveRun file lookup fuel (.fullAt loc) with
  | none => rw [hx] at h; simp at h
  | some r =>
    rw [hx] at h
    obtain ⟨o, rfl⟩ := resolveRun_fullAt_shape hx
    have ho : o = out := by simpa using h
    subst ho
    cases fuel with
    | zero => simp [resolveRun] at hx
    | succ f =>
      rw [rr_fullAt] at hx
      have := resolve_refines file lookup (f + 1) f (by omega) (.popul (file loc)) (.obj o) hx
      simpa using this

/-- C7 witness: the theorem applied to the concrete acyclic example; the
reference to (1, 0) materializes as the numeric 7 and the reference to the
absent (9, 9) as Null. -/
theorem C7_witness :
    PDFValue.dict [(.name (bs "A"), .numeric (.intVal 7)), (.name (bs "B"), .null)] =
      replaceNestedRefs (specResolveRef egResFile egResLookup 10) (egResFile 60) :=
  C7_full_object_resolves_references egResFile egResLookup 10 60
    (.dict [(.name (bs "A"), .numeric (.intVal 7)), (.name (bs "B"), .null)]) (by rfl)

/-- C9: converting an IndirectObject (or the Reference it serializes as)
to bytes succeeds exactly when its identity has been assigned: with the
object number or the generation still unset the conversion is the
InvalidIdentity error, and after assignment it succeeds.  (Modelled from
the spec: the value-class module is absent from the source tree.) -/
theorem C9_identity_required_for_bytes :
    ∀ o : PDFIndirectObject,
      (pdfIndirectToBytes o).isOk = (o.number.isSome && o.generation.isSome) := by
  intro o
  obtain ⟨d, n, g⟩ := o
  cases n <;> cases g <;> rfl

/-- C8: every input file whose trailer dictionary contains a Prev key is
rejected by the read entry point: whenever the trailer stage of _read_tail
parses a trailer holding Prev, _read_tail fails (with the unsupported
multi-segment cross-reference error) instead of proceeding. -/
theorem C8_prev_trailer_rejected :
    ∀ (fileData : List Nat) (fuel : Nat) (td : PDFValue),
      trailerStage fileData = .ok td →
      dictHasName td (bs "Prev") = true →
      (readTail fileData fuel).isOk = false := by
  intro fileData fuel td ht hp
  simp only [readTail]
  split
  · rfl
  · split
    · rfl
    · split
      · rfl
      · split
        · rfl
        · next td2 h4 =>
            rw [ht] at h4
            have h5 : td2 = td := (Except.ok.inj h4).symm
            subst h5
            rw [if_pos hp]
            rfl

/-- C8 witness: the theorem applied to the concrete minimal file whose
trailer is the dictionary with the single entry Prev 5. -/
theorem C8_witness : (readTail egPrevFile 4096).isOk = false :=
  C8_prev_trailer_rejected egPrevFile 4096
    (.dict [(.name (bs "Prev"), .numeric (.intVal 5))]) (by rfl) (by rfl)

set_option maxRecDepth 8000 in
lemma egWriterStageA : writerWithXref egWInput = egPreTrailerLit := rfl

set_option maxRecDepth 9500 in
lemma egWriterStageB : valueBytes (writerTrailerDict egWInput) = egTrailerDictLit := rfl

set_option maxRecDepth 8000 in
lemma egWriterStageC : writerStartXref egWInput = 330 := rfl

lemma egWriter_eq : egPdfBytes = egBytesLit := by
  unfold egPdfBytes pdfWriterBytes egBytesLit
  rw [egWriterStageA, egWriterStageB, egWriterStageC]

set_option maxRecDepth 9500 in
/-- C2: the writer given one page plus one auxiliary stream object
produces bytes beginning with the %PDF-1.4 header line, containing exactly
one xref section whose single subsection is sized count + 1 = 6 for the
count of 5 objects written, and a trailer whose Size is 6; the reader
applied to that output recovers the same object count (5 in-use lookup
entries for the 5 objects), reads Root as the reference 1 0 R, and parsing
the object at the offset the recovered table gives for Root yields the
document catalog dictionary. -/
theorem C2_write_read_round_trip :
    egPdfBytes.take 9 = bs "%PDF-1.4\n" ∧
    countSub egPdfBytes (bs "\nxref\n") = 1 ∧
    countSub egPdfBytes (bs "\nxref\n0 6\n") = 1 ∧
    (writerObjects egWInput).length = 5 ∧
    egReadProj = some (5, some (.numeric (.intVal 6)), some (.objectId 1 0)) ∧
    egRootObjs = some [.dict [(.name (bs "Type"), .name (bs "Catalog")),
      (.name (bs "Pages"), .objectId 2 0)]] := by
  refine ⟨?_, ?_, ?_, rfl, ?_, ?_⟩
  · rw [egWriter_eq]
    rfl
  · rw [egWriter_eq]
    rfl
  · rw [egWriter_eq]
    rfl
  · unfold egReadProj
    rw [egWriter_eq]
    rfl
  · unfold egRootObjs
    rw [egWriter_eq]
    rfl
